import Mathlib

/-!
Shallow embedding of `custom_components/import_statistics/prepare_data.py`
(together with the constants of `const.py`) from the
homeassistant-statistics repository.

Modelling conventions:
* A CSV file is represented by its parsed tabular form `Frame` (a header plus
  rows of string cells).  The purely textual concerns that pandas `read_csv`
  consumes (field delimiter, decimal separator, quoting) sit below this
  abstraction, so cell values stay strings.
* External effects are collected in an explicit environment `Env`: the
  filesystem (`files`), timezone validation (success of `zoneinfo.ZoneInfo`,
  as `validTz`), strict datetime parsing (`datetime.strptime`, as `strptime`)
  and the source-system unit registry (`entityUnits`).
* Python exceptions become `Except Err`; every `Err` constructor tags exactly
  one raise site (a `helpers.handle_error` call or a library exception
  source), carrying the message data that the source attaches there.
* The module `custom_components/import_statistics/helpers.py` is not among
  the sources; its functions are modelled from the spec and carry doc
  comments starting with `Modelled from the spec:`.
-/

set_option autoImplicit false
set_option linter.unusedVariables false

deriving instance DecidableEq for Except

namespace ImportStatistics

/-- Constant from const.py: header of the supplier datetime column (B). -/
def CSV_COL_DATETIME : String := "Dátum a čas merania"

/-- Constant from const.py: header of the supplier consumption column (D). -/
def CSV_COL_CONSUMPTION : String := "1.5.0 - Činný odber (kW)"

/-- Constant from const.py: header of the supplier supply column (F). -/
def CSV_COL_SUPPLY : String := "2.5.0 - Činná dodávka (kW)"

/-- Constant from const.py: the default datetime format. -/
def DATETIME_DEFAULT_FORMAT : String := "%d.%m.%Y %H:%M"

/-- Enumeration helpers.UnitFrom: where the unit of measurement comes from. -/
inductive UnitFrom where
  | ENTITY
  | TABLE
deriving DecidableEq, Repr

/-- Error values.  Each constructor tags one exception source of
prepare_data.py or of the modelled helpers, with the message data the code
attaches at that site. -/
inductive Err where
  | fileNotFound (msg : String)
  | invalidTimezone (msg : String)
  | usecolsMissing
  | missingColumnsBdf
  | columnsInvalid (msg : String)
  | implColumnsValid
  | ambiguousBoth
  | ambiguousNeither
  | zoneInfoError (tzid : String)
  | timestampParse (text : String)
  | unitNotFound (statistic_id : String)
deriving DecidableEq, Repr

/-- Value of a statistic point: either a mean value or a cumulative sum
value, kept as the raw cell text (numeric conversion happens below the
abstraction level of this model). -/
inductive StatValue where
  | mean (v : String)
  | sum (v : String)
deriving DecidableEq, Repr

/-- One statistic point: the parsed instant, the timezone it was localized
to, and the value. -/
structure StatPoint where
  start : Nat
  tz : String
  value : StatValue
deriving DecidableEq, Repr

/-- Metadata of one series, as built by handle_dataframe and
handle_dataframe_bdf. -/
structure Metadata where
  has_mean : Bool
  has_sum : Bool
  source : String
  statistic_id : String
  name : Option String
  unit_of_measurement : String
deriving DecidableEq, Repr

/-- The output mapping: a Python dict in insertion order, from series key to
(metadata, ordered point list). -/
abbrev Stats := List (String × Metadata × List StatPoint)

/-- Dict lookup on the output mapping. -/
def lookupStats (stats : Stats) (k : String) : Option (Metadata × List StatPoint) :=
  match stats with
  | [] => none
  | e :: rest => if e.1 = k then some e.2 else lookupStats rest k

/-- Dict assignment `stats[k] = v`: replace in place if the key exists
(keeping its position, as Python dicts do), otherwise append at the end. -/
def statsInsert (stats : Stats) (k : String) (v : Metadata × List StatPoint) : Stats :=
  match stats with
  | [] => [(k, v)]
  | e :: rest => if e.1 = k then (k, v) :: rest else e :: statsInsert rest k v

/-- The statement `stats[k][1].append(p)`: append one point to the point
list of key `k`. -/
def statsAppendPoint (stats : Stats) (k : String) (p : StatPoint) : Stats :=
  match stats with
  | [] => []
  | e :: rest =>
    (if e.1 = k then (e.1, e.2.1, e.2.2 ++ [p]) else e) :: statsAppendPoint rest k p

/-- The key list of the output mapping, in insertion order. -/
def statsKeys : Stats → List String
  | [] => []
  | e :: rest => e.1 :: statsKeys rest

/-- A parsed tabular file or dataframe: a header and rows of cells. -/
structure Frame where
  header : List String
  rows : List (List String)
deriving DecidableEq, Repr

/-- Access `row[k]` by column name, with the empty string for an absent or
short column (pandas delivers NaN there, which this model flattens to ""). -/
def cellD (header row : List String) (k : String) : String :=
  match header, row with
  | [], _ => ""
  | _ :: _, [] => ""
  | c :: hrest, v :: vrest => if c = k then v else cellD hrest vrest k

/-- Restriction of one row to the cells of the selected columns. -/
def selectRow (header cols row : List String) : List String :=
  match header, row with
  | [], _ => []
  | _ :: _, [] => []
  | c :: hrest, v :: vrest =>
    if cols.contains c then v :: selectRow hrest cols vrest
    else selectRow hrest cols vrest

/-- Restriction of a frame to the selected columns, keeping file order. -/
def selectCols (f : Frame) (cols : List String) : Frame :=
  { header := f.header.filter (fun c => cols.contains c),
    rows := f.rows.map (fun r => selectRow f.header cols r) }

/-- Behavior of `pd.read_csv(..., usecols=cols)`: if any requested column is
absent from the header, pandas raises ValueError; otherwise the frame is
restricted to those columns. -/
def read_csv_usecols (f : Frame) (cols : List String) : Except Err Frame :=
  if cols.all (fun c => f.header.contains c) then .ok (selectCols f cols)
  else .error Err.usecolsMissing

/-- The column renaming of the B/D/F mode in prepare_data_to_import. -/
def bdfRename (c : String) : String :=
  if c = CSV_COL_DATETIME then "start"
  else if c = CSV_COL_CONSUMPTION then "consumption"
  else if c = CSV_COL_SUPPLY then "supply"
  else c

/-- DataFrame.rename on the header. -/
def renameCols (f : Frame) (ren : String → String) : Frame :=
  { header := f.header.map ren, rows := f.rows }

/-- The runtime capabilities the transformation consumes: timezone validity
(success of `zoneinfo.ZoneInfo`), strict datetime parsing (format then text,
as `datetime.strptime`), and the source-system unit registry keyed by
statistic id. -/
structure Sys where
  validTz : String → Bool
  strptime : String → String → Option Nat
  entityUnits : String → Option String

/-- The external world of one invocation: the filesystem (a path maps to the
parsed table of the file there, or to none when the path does not exist)
together with the runtime capabilities. -/
structure Env where
  files : String → Option Frame
  sys : Sys

/-- The optional fields of `call.data` that prepare_data.py reads. -/
structure CallData where
  decimal : Option Bool
  datetime_format : Option String
  unit_from_entity : Option Bool
  delimiter : Option String
  timezone_identifier : Option String
  statistic_id_consumption : Option String
  statistic_id_supply : Option String
  unit_consumption : Option String
  unit_supply : Option String

/-- Characters of a string up to the first separator character. -/
def takeUntilSep : List Char → List Char
  | [] => []
  | c :: cs => if c = '.' ∨ c = ':' then [] else c :: takeUntilSep cs

/-- Modelled from the spec: helpers.get_source derives the source tag
"deterministically from the series identifier's namespace segment (the
portion before its first separator)". -/
def get_source (statistic_id : String) : String :=
  String.mk (takeUntilSep statistic_id.data)

/-- Modelled from the spec: helpers.add_unit_to_dataframe.  "When unit source
is FROM_SOURCE_SYSTEM, the unit is looked up from the external source-system
registry keyed by the series identifier — if unresolvable there, this is a
fatal error.  When unit source is FROM_TABLE, the unit is taken verbatim from
the supplied hint (which may be an empty string)." -/
def add_unit_to_dataframe (sys : Sys) (source : String) (unit_from_where : UnitFrom)
    (unit : String) (statistic_id : String) : Except Err String :=
  match unit_from_where with
  | .TABLE => .ok unit
  | .ENTITY =>
    match sys.entityUnits statistic_id with
    | some u => .ok u
    | none => .error (Err.unitNotFound statistic_id)

/-- Modelled from the spec: helpers.get_mean_stat builds a mean-point
"{timestamp, mean value}" by parsing the row's timestamp text "strictly
against the resolved datetime format" and attaching the resolved timezone;
a malformed timestamp is a fatal parsing failure. -/
def get_mean_stat (sys : Sys) (startText meanText : String)
    (tz datetime_format : String) : Except Err StatPoint :=
  match sys.strptime datetime_format startText with
  | some t => .ok { start := t, tz := tz, value := .mean meanText }
  | none => .error (Err.timestampParse startText)

/-- Modelled from the spec: helpers.get_sum_stat builds a sum-point
"{timestamp, cumulative value}" the same way as get_mean_stat. -/
def get_sum_stat (sys : Sys) (startText sumText : String)
    (tz datetime_format : String) : Except Err StatPoint :=
  match sys.strptime datetime_format startText with
  | some t => .ok { start := t, tz := tz, value := .sum sumText }
  | none => .error (Err.timestampParse startText)

/-- Modelled from the spec: helpers.are_columns_valid.  The "generic layout
requires a statistic_id column, a start column, exactly one of mean/sum, and
optionally a unit column"; the mean/sum rule is enforced by handle_dataframe
itself in the source (prepare_data.py lines 147-153), so the helper checks
the presence of the statistic_id and start columns, raising an error (never
returning false) when one is missing. -/
def are_columns_valid (df : Frame) (unit_from_where : UnitFrom) : Except Err Bool :=
  if !(df.header.contains "statistic_id") then
    .error (Err.columnsInvalid "The file must contain the column statistic_id.")
  else if !(df.header.contains "start") then
    .error (Err.columnsInvalid "The file must contain the column start.")
  else .ok true

/-- Function handle_arguments of prepare_data.py: resolve the caller options,
check file existence first, then validate the timezone by constructing a
ZoneInfo; returns (decimal, timezone_identifier, delimiter, datetime_format,
unit_from_entity). -/
def handle_arguments (env : Env) (file_path : String) (call : CallData) :
    Except Err (String × String × Option String × String × UnitFrom) :=
  let decimal := if call.decimal.getD true then "," else "."
  let datetime_format := call.datetime_format.getD DATETIME_DEFAULT_FORMAT
  let unit_from_entity :=
    if call.unit_from_entity = some true then UnitFrom.ENTITY else UnitFrom.TABLE
  let delimiter := call.delimiter
  if (env.files file_path).isNone then
    .error (Err.fileNotFound ("path " ++ file_path ++ " does not exist."))
  else
    match call.timezone_identifier with
    | none => .error (Err.invalidTimezone "Invalid timezone_identifier: None")
    | some tzid =>
      if env.sys.validTz tzid then
        .ok (decimal, tzid, delimiter, datetime_format, unit_from_entity)
      else .error (Err.invalidTimezone ("Invalid timezone_identifier: " ++ tzid))

/-- The for-loop over the rows of a dataframe: run the step on each row in
order, propagating the first exception. -/
def processRows (step : Stats → List String → Except Err Stats) :
    Stats → List (List String) → Except Err Stats
  | stats, [] => .ok stats
  | stats, r :: rs =>
    match step stats r with
    | .error e => .error e
    | .ok s1 => processRows step s1 rs

/-- The per-row statistic of the generic pipeline: a mean-point when the
table has a mean column, else a sum-point (prepare_data.py lines 174-177). -/
def genericRowStat (sys : Sys) (has_mean : Bool) (header : List String)
    (tz datetime_format : String) (row : List String) : Except Err StatPoint :=
  if has_mean then
    get_mean_stat sys (cellD header row "start") (cellD header row "mean") tz datetime_format
  else
    get_sum_stat sys (cellD header row "start") (cellD header row "sum") tz datetime_format

/-- The first-seen branch of the generic loop (prepare_data.py lines
160-172): on a new statistic id, build its metadata and insert it with an
empty point list. -/
def genericMetaStep (sys : Sys) (has_mean has_sum : Bool) (header : List String)
    (unit_from_where : UnitFrom) (stats : Stats) (row : List String) : Except Err Stats :=
  if (lookupStats stats (cellD header row "statistic_id")).isNone then
    match add_unit_to_dataframe sys (get_source (cellD header row "statistic_id"))
        unit_from_where (cellD header row "unit") (cellD header row "statistic_id") with
    | .error e => .error e
    | .ok u =>
      .ok (statsInsert stats (cellD header row "statistic_id")
        ({ has_mean := has_mean, has_sum := has_sum,
           source := get_source (cellD header row "statistic_id"),
           statistic_id := cellD header row "statistic_id", name := none,
           unit_of_measurement := u }, []))
  else .ok stats

/-- One iteration of the generic loop (prepare_data.py lines 158-179):
metadata insertion for a first-seen id, then the row's statistic point is
computed and appended to that id's list. -/
def genericStep (sys : Sys) (has_mean has_sum : Bool) (header : List String)
    (unit_from_where : UnitFrom) (tz datetime_format : String)
    (stats : Stats) (row : List String) : Except Err Stats :=
  match genericMetaStep sys has_mean has_sum header unit_from_where stats row with
  | .error e => .error e
  | .ok s1 =>
    match genericRowStat sys has_mean header tz datetime_format row with
    | .error e => .error e
    | .ok p => .ok (statsAppendPoint s1 (cellD header row "statistic_id") p)

/-- Function handle_dataframe of prepare_data.py: column validation, the
mean/sum classification (both present or neither present is fatal), ZoneInfo
construction, then the row loop starting from an empty dict. -/
def handle_dataframe (sys : Sys) (df : Frame) (timezone_identifier datetime_format : String)
    (unit_from_where : UnitFrom) : Except Err Stats :=
  match are_columns_valid df unit_from_where with
  | .error e => .error e
  | .ok cv =>
    if !cv then .error Err.implColumnsValid
    else if df.header.contains "mean" && df.header.contains "sum" then
      .error Err.ambiguousBoth
    else if !(df.header.contains "mean") && !(df.header.contains "sum") then
      .error Err.ambiguousNeither
    else if !(sys.validTz timezone_identifier) then
      .error (Err.zoneInfoError timezone_identifier)
    else
      processRows
        (genericStep sys (df.header.contains "mean") (df.header.contains "sum")
          df.header unit_from_where timezone_identifier datetime_format)
        [] df.rows

/-- The metadata built for one of the two up-front series of the B/D/F mode
(prepare_data.py lines 204-220). -/
def bdfMetaFor (sys : Sys) (unit_from_where : UnitFrom) (stat_id unit_hint : String) :
    Except Err Metadata :=
  match add_unit_to_dataframe sys (get_source stat_id) unit_from_where unit_hint stat_id with
  | .error e => .error e
  | .ok u =>
    .ok { has_mean := false, has_sum := true, source := get_source stat_id,
          statistic_id := stat_id, name := none, unit_of_measurement := u }

/-- One iteration of the B/D/F row loop (prepare_data.py lines 223-232): the
consumption value becomes a sum-point appended to the consumption series,
then the supply value becomes a sum-point appended to the supply series. -/
def bdfStep (sys : Sys) (header : List String) (tz datetime_format : String)
    (stat_id_consumption stat_id_supply : String)
    (stats : Stats) (row : List String) : Except Err Stats :=
  match get_sum_stat sys (cellD header row "start") (cellD header row "consumption")
      tz datetime_format with
  | .error e => .error e
  | .ok cons_stat =>
    match get_sum_stat sys (cellD header row "start") (cellD header row "supply")
        tz datetime_format with
    | .error e => .error e
    | .ok supp_stat =>
      .ok (statsAppendPoint (statsAppendPoint stats stat_id_consumption cons_stat)
        stat_id_supply supp_stat)

/-- Function handle_dataframe_bdf of prepare_data.py: require the renamed
columns, construct the timezone, create both series up front (consumption
first, supply second — dict assignment, so an equal supply id overwrites the
consumption entry), then fill both series row by row. -/
def handle_dataframe_bdf (sys : Sys) (df : Frame) (timezone_identifier datetime_format : String)
    (unit_from_where : UnitFrom) (stat_id_consumption stat_id_supply : String)
    (unit_consumption unit_supply : String) : Except Err Stats :=
  if !(["start", "consumption", "supply"].all (fun c => df.header.contains c)) then
    .error Err.missingColumnsBdf
  else if !(sys.validTz timezone_identifier) then
    .error (Err.zoneInfoError timezone_identifier)
  else
    match bdfMetaFor sys unit_from_where stat_id_consumption unit_consumption with
    | .error e => .error e
    | .ok mC =>
      let stats0 := statsInsert [] stat_id_consumption (mC, [])
      match bdfMetaFor sys unit_from_where stat_id_supply unit_supply with
      | .error e => .error e
      | .ok mS =>
        let stats1 := statsInsert stats0 stat_id_supply (mS, [])
        processRows
          (bdfStep sys df.header timezone_identifier datetime_format
            stat_id_consumption stat_id_supply)
          stats1 df.rows

/-- The resolution `delimiter = delimiter or ";"` of prepare_data.py line
47 (Python falsiness: absent or empty both select the default). -/
def resolveDelimiter (delimiter : Option String) : String :=
  match delimiter with
  | none => ";"
  | some s => if s = "" then ";" else s

/-- The resolution `decimal = decimal or ","` of prepare_data.py line 48. -/
def resolveDecimal (decimal : String) : String :=
  if decimal = "" then "," else decimal

/-- The body of the try-block of prepare_data_to_import (lines 51-75): the
usecols read of the three supplier columns, the renaming, and
handle_dataframe_bdf with the caller-configured ids and unit hints. -/
def bdfAttempt (sys : Sys) (f : Frame) (timezone_identifier datetime_format : String)
    (unit_from_entity : UnitFrom) (call : CallData) : Except Err Stats :=
  match read_csv_usecols f [CSV_COL_DATETIME, CSV_COL_CONSUMPTION, CSV_COL_SUPPLY] with
  | .error e => .error e
  | .ok sel =>
    handle_dataframe_bdf sys (renameCols sel bdfRename) timezone_identifier datetime_format
      unit_from_entity
      (call.statistic_id_consumption.getD "sensor.energy_consumption")
      (call.statistic_id_supply.getD "sensor.energy_supply")
      (call.unit_consumption.getD "")
      (call.unit_supply.getD "")

/-- The fallback path of prepare_data_to_import (lines 79-82): read the whole
file and run handle_dataframe. -/
def genericPath (sys : Sys) (f : Frame) (timezone_identifier datetime_format : String)
    (unit_from_entity : UnitFrom) : Except Err (Stats × UnitFrom) :=
  match handle_dataframe sys f timezone_identifier datetime_format unit_from_entity with
  | .error e => .error e
  | .ok stats => .ok (stats, unit_from_entity)

/-- Function prepare_data_to_import of prepare_data.py: resolve the
arguments, then try the B/D/F mode; any exception inside the try-block is
caught and the generic fallback runs instead. -/
def prepare_data_to_import (env : Env) (file_path : String) (call : CallData) :
    Except Err (Stats × UnitFrom) :=
  match handle_arguments env file_path call with
  | .error e => .error e
  | .ok (decimal, timezone_identifier, delimiter, datetime_format, unit_from_entity) =>
    let _delimiter := resolveDelimiter delimiter
    let _decimal := resolveDecimal decimal
    match env.files file_path with
    | none => .error (Err.fileNotFound ("path " ++ file_path ++ " does not exist."))
    | some f =>
      match bdfAttempt env.sys f timezone_identifier datetime_format unit_from_entity call with
      | .ok stats => .ok (stats, unit_from_entity)
      | .error _ => genericPath env.sys f timezone_identifier datetime_format unit_from_entity

/-- Specification helper: the list of row statistics of the rows matching a
predicate, in row order, propagating the first exception.  Used to state
that point sequences follow file row order. -/
def rowResults (f : List String → Except Err StatPoint) :
    List (List String) → Except Err (List StatPoint)
  | [] => .ok []
  | r :: rs =>
    match f r with
    | .error e => .error e
    | .ok p =>
      match rowResults f rs with
      | .error e => .error e
      | .ok ps => .ok (p :: ps)

/-- Specification helper: the interleaved consumption/supply points of the
B/D/F loop when both series share one key — two points per row, consumption
first. -/
def bdfPairResults (fc fs : List String → Except Err StatPoint) :
    List (List String) → Except Err (List StatPoint)
  | [] => .ok []
  | r :: rs =>
    match fc r with
    | .error e => .error e
    | .ok c =>
      match fs r with
      | .error e => .error e
      | .ok s =>
        match bdfPairResults fc fs rs with
        | .error e => .error e
        | .ok ps => .ok (c :: s :: ps)

/-- Specification helper: `sub` occurs inside `s` as a substring. -/
def containsSub (s sub : String) : Prop :=
  ∃ pre suf, s = pre ++ sub ++ suf

/-! ### Concrete instances used as witnesses and counterexamples

A toy datetime parser standing for `datetime.strptime` with the default
format, a runtime with one valid timezone and an empty unit registry, and a
few small input files. -/

/-- Toy strict datetime parser: recognizes exactly two timestamps under the
default format. -/
def toyStrptime : String → String → Option Nat := fun fmt text =>
  if fmt = DATETIME_DEFAULT_FORMAT then
    if text = "01.01.2023 00:00" then some 0
    else if text = "01.01.2023 01:00" then some 60
    else none
  else none

/-- Toy runtime: one valid timezone, the toy parser, an empty unit registry. -/
def toySys : Sys :=
  { validTz := fun tz => tz = "Europe/Bratislava",
    strptime := toyStrptime,
    entityUnits := fun _ => none }

/-- A filesystem containing the given frame at path "data.csv". -/
def envOf (f : Frame) : Env :=
  { files := fun p => if p = "data.csv" then some f else none, sys := toySys }

/-- A filesystem with no files at all. -/
def envEmpty : Env := { files := fun _ => none, sys := toySys }

/-- A service call leaving every option at its default except the timezone. -/
def callW : CallData :=
  { decimal := none, datetime_format := none, unit_from_entity := none,
    delimiter := none, timezone_identifier := some "Europe/Bratislava",
    statistic_id_consumption := none, statistic_id_supply := none,
    unit_consumption := none, unit_supply := none }

/-- A service call configuring the consumption and supply series to the same
identifier, with different unit hints. -/
def callEq : CallData :=
  { callW with statistic_id_consumption := some "sensor.x",
               statistic_id_supply := some "sensor.x",
               unit_consumption := some "kWh",
               unit_supply := some "kW" }

/-- A service call with an unresolvable timezone identifier. -/
def callBadTz : CallData := { callW with timezone_identifier := some "Not/AZone" }

/-- A generic-layout file: statistic_id, start, sum; two rows, one series. -/
def fileGen : Frame :=
  { header := ["statistic_id", "start", "sum"],
    rows := [["sensor.a", "01.01.2023 00:00", "5"],
             ["sensor.a", "01.01.2023 01:00", "3"]] }

/-- A filesystem carrying the generic file at every path. -/
def envAll : Env := { files := fun _ => some fileGen, sys := toySys }

/-- A supplier-layout file: the three fixed headers plus an extra column. -/
def fileBdf : Frame :=
  { header := [CSV_COL_DATETIME, CSV_COL_CONSUMPTION, CSV_COL_SUPPLY, "extra"],
    rows := [["01.01.2023 00:00", "1", "2", "x"],
             ["01.01.2023 01:00", "3", "4", "y"]] }

/-- A supplier-layout file with exactly the three fixed headers and one row. -/
def fileBdfPlain : Frame :=
  { header := [CSV_COL_DATETIME, CSV_COL_CONSUMPTION, CSV_COL_SUPPLY],
    rows := [["01.01.2023 00:00", "1", "2"]] }

/-- A file carrying both layouts at once: the three supplier headers (with a
malformed timestamp in the supplier datetime column) and a valid generic
layout in the remaining columns. -/
def fileMix : Frame :=
  { header := [CSV_COL_DATETIME, CSV_COL_CONSUMPTION, CSV_COL_SUPPLY,
               "statistic_id", "start", "sum"],
    rows := [["bad-ts", "1", "2", "sensor.a", "01.01.2023 00:00", "5"]] }

/-- A generic-layout file carrying a malformed timestamp in its start
column. -/
def fileGenBad : Frame :=
  { header := ["statistic_id", "start", "sum"],
    rows := [["sensor.a", "nonsense", "5"]] }

/-- A generic-layout file carrying both a mean and a sum column. -/
def fileBothMeanSum : Frame :=
  { header := ["statistic_id", "start", "mean", "sum"],
    rows := [["sensor.a", "01.01.2023 00:00", "1", "5"]] }

/-! ### Lemmas about the output-mapping operations -/

theorem lookupStats_statsInsert_self (stats : Stats) (k : String)
    (v : Metadata × List StatPoint) :
    lookupStats (statsInsert stats k v) k = some v := by
  induction stats with
  | nil => simp [statsInsert, lookupStats]
  | cons e rest ih =>
    by_cases h : e.1 = k
    · simp [statsInsert, lookupStats, h]
    · simp [statsInsert, lookupStats, h, ih]

theorem lookupStats_statsInsert_ne (stats : Stats) (k k' : String)
    (v : Metadata × List StatPoint) (h : k' ≠ k) :
    lookupStats (statsInsert stats k v) k' = lookupStats stats k' := by
  induction stats with
  | nil => simp [statsInsert, lookupStats, Ne.symm h]
  | cons e rest ih =>
    by_cases he : e.1 = k
    · simp [statsInsert, lookupStats, he, Ne.symm h]
    · simp [statsInsert, lookupStats, he, ih]

theorem lookupStats_statsAppendPoint_self (stats : Stats) (k : String) (p : StatPoint) :
    lookupStats (statsAppendPoint stats k p) k =
      (lookupStats stats k).map (fun mp => (mp.1, mp.2 ++ [p])) := by
  induction stats with
  | nil => simp [statsAppendPoint, lookupStats]
  | cons e rest ih =>
    by_cases he : e.1 = k
    · simp [statsAppendPoint, lookupStats, he]
    · simp [statsAppendPoint, lookupStats, he, ih]

theorem lookupStats_statsAppendPoint_ne (stats : Stats) (k k' : String) (p : StatPoint)
    (h : k' ≠ k) :
    lookupStats (statsAppendPoint stats k p) k' = lookupStats stats k' := by
  induction stats with
  | nil => simp [statsAppendPoint, lookupStats]
  | cons e rest ih =>
    by_cases he : e.1 = k
    · simp [statsAppendPoint, lookupStats, he, Ne.symm h, ih]
    · by_cases he' : e.1 = k'
      · simp [statsAppendPoint, lookupStats, he, he', h, ih]
      · simp [statsAppendPoint, lookupStats, he, he', h, ih]

theorem statsKeys_statsAppendPoint (stats : Stats) (k : String) (p : StatPoint) :
    statsKeys (statsAppendPoint stats k p) = statsKeys stats := by
  induction stats with
  | nil => simp [statsAppendPoint, statsKeys]
  | cons e rest ih =>
    by_cases he : e.1 = k
    · simp [statsAppendPoint, statsKeys, he, ih]
    · simp [statsAppendPoint, statsKeys, he, ih]

theorem mem_statsInsert (stats : Stats) (k : String) (v : Metadata × List StatPoint)
    (e : String × Metadata × List StatPoint) (h : e ∈ statsInsert stats k v) :
    e ∈ stats ∨ e = (k, v) := by
  induction stats with
  | nil => simp [statsInsert] at h; simp [h]
  | cons e0 rest ih =>
    by_cases he : e0.1 = k
    · simp only [statsInsert, if_pos he] at h
      rcases List.mem_cons.mp h with rfl | hmem
      · exact Or.inr rfl
      · exact Or.inl (List.mem_cons_of_mem _ hmem)
    · simp only [statsInsert, if_neg he] at h
      rcases List.mem_cons.mp h with rfl | hmem
      · exact Or.inl (List.mem_cons_self _ _)
      · rcases ih hmem with h1 | h2
        · exact Or.inl (List.mem_cons_of_mem _ h1)
        · exact Or.inr h2

theorem mem_statsAppendPoint (stats : Stats) (k : String) (p : StatPoint)
    (e : String × Metadata × List StatPoint) (h : e ∈ statsAppendPoint stats k p) :
    ∃ e0 ∈ stats, e.1 = e0.1 ∧ e.2.1 = e0.2.1 := by
  induction stats with
  | nil => simp [statsAppendPoint] at h
  | cons e0 rest ih =>
    simp only [statsAppendPoint] at h
    rcases List.mem_cons.mp h with heq | hmem
    · by_cases hk : e0.1 = k
      · rw [if_pos hk] at heq
        exact ⟨e0, List.mem_cons_self _ _, by rw [heq], by rw [heq]⟩
      · rw [if_neg hk] at heq
        exact ⟨e0, List.mem_cons_self _ _, by rw [heq], by rw [heq]⟩
    · rcases ih hmem with ⟨e1, he1, hfst, hsnd⟩
      exact ⟨e1, List.mem_cons_of_mem _ he1, hfst, hsnd⟩

/-! ### Lemmas about the row loop -/

theorem processRows_nil (step : Stats → List String → Except Err Stats) (s : Stats) :
    processRows step s [] = .ok s := rfl

theorem processRows_cons (step : Stats → List String → Except Err Stats) (s : Stats)
    (r : List String) (rs : List (List String)) :
    processRows step s (r :: rs) =
      match step s r with
      | .error e => .error e
      | .ok s1 => processRows step s1 rs := rfl

theorem processRows_ok_step (step : Stats → List String → Except Err Stats) :
    ∀ (rows : List (List String)) (s0 s1 : Stats),
      processRows step s0 rows = .ok s1 → ∀ r ∈ rows, ∃ a b, step a r = .ok b := by
  intro rows
  induction rows with
  | nil => intro s0 s1 h r hr; simp at hr
  | cons r rs ih =>
    intro s0 s1 h r' hr'
    cases hstep : step s0 r with
    | error e => simp [processRows_cons, hstep] at h
    | ok smid =>
      simp only [processRows_cons, hstep] at h
      rcases List.mem_cons.mp hr' with rfl | hmem
      · exact ⟨s0, smid, hstep⟩
      · exact ih smid s1 h r' hmem

theorem processRows_error_shape (step : Stats → List String → Except Err Stats)
    (P : Err → Prop) (hstep : ∀ s r e, step s r = .error e → P e) :
    ∀ (rows : List (List String)) (s0 : Stats) (e : Err),
      processRows step s0 rows = .error e → P e := by
  intro rows
  induction rows with
  | nil => intro s0 e h; simp [processRows_nil] at h
  | cons r rs ih =>
    intro s0 e h
    cases hs : step s0 r with
    | error e0 =>
      simp only [processRows_cons, hs] at h
      cases h
      exact hstep s0 r e hs
    | ok smid =>
      simp only [processRows_cons, hs] at h
      exact ih smid e h

theorem processRows_meta_invariant (step : Stats → List String → Except Err Stats)
    (P : Metadata → Prop)
    (hstep : ∀ s r s', (∀ e ∈ s, P e.2.1) → step s r = .ok s' → ∀ e ∈ s', P e.2.1) :
    ∀ (rows : List (List String)) (s0 s1 : Stats),
      (∀ e ∈ s0, P e.2.1) → processRows step s0 rows = .ok s1 → ∀ e ∈ s1, P e.2.1 := by
  intro rows
  induction rows with
  | nil =>
    intro s0 s1 h0 h
    rw [processRows_nil] at h
    cases h
    exact h0
  | cons r rs ih =>
    intro s0 s1 h0 h
    cases hs : step s0 r with
    | error e0 => simp [processRows_cons, hs] at h
    | ok smid =>
      simp only [processRows_cons, hs] at h
      exact ih smid s1 (hstep s0 r smid h0 hs) h

/-! ### Decomposition lemmas for the pipeline functions -/

theorem add_unit_error_shape (sys : Sys) (source : String) (ufw : UnitFrom)
    (unit statistic_id : String) (e : Err)
    (h : add_unit_to_dataframe sys source ufw unit statistic_id = .error e) :
    e = Err.unitNotFound statistic_id := by
  cases ufw with
  | TABLE => simp [add_unit_to_dataframe] at h
  | ENTITY =>
    unfold add_unit_to_dataframe at h
    cases hu : sys.entityUnits statistic_id with
    | some u => rw [hu] at h; cases h
    | none => rw [hu] at h; cases h; rfl

theorem get_sum_stat_ok_strptime (sys : Sys) (startText sumText tz fmt : String)
    (p : StatPoint) (h : get_sum_stat sys startText sumText tz fmt = .ok p) :
    (sys.strptime fmt startText).isSome := by
  unfold get_sum_stat at h
  cases ht : sys.strptime fmt startText with
  | some t => rfl
  | none => rw [ht] at h; cases h

theorem get_mean_stat_ok_strptime (sys : Sys) (startText meanText tz fmt : String)
    (p : StatPoint) (h : get_mean_stat sys startText meanText tz fmt = .ok p) :
    (sys.strptime fmt startText).isSome := by
  unfold get_mean_stat at h
  cases ht : sys.strptime fmt startText with
  | some t => rfl
  | none => rw [ht] at h; cases h

theorem get_sum_stat_error_shape (sys : Sys) (startText sumText tz fmt : String)
    (e : Err) (h : get_sum_stat sys startText sumText tz fmt = .error e) :
    e = Err.timestampParse startText := by
  unfold get_sum_stat at h
  cases ht : sys.strptime fmt startText with
  | some t => rw [ht] at h; cases h
  | none => rw [ht] at h; cases h; rfl

theorem get_mean_stat_error_shape (sys : Sys) (startText meanText tz fmt : String)
    (e : Err) (h : get_mean_stat sys startText meanText tz fmt = .error e) :
    e = Err.timestampParse startText := by
  unfold get_mean_stat at h
  cases ht : sys.strptime fmt startText with
  | some t => rw [ht] at h; cases h
  | none => rw [ht] at h; cases h; rfl

theorem genericRowStat_ok_strptime (sys : Sys) (hm : Bool) (header : List String)
    (tz fmt : String) (r : List String) (p : StatPoint)
    (h : genericRowStat sys hm header tz fmt r = .ok p) :
    (sys.strptime fmt (cellD header r "start")).isSome := by
  unfold genericRowStat at h
  cases hm with
  | true => exact get_mean_stat_ok_strptime sys _ _ _ _ _ (by simpa using h)
  | false => exact get_sum_stat_ok_strptime sys _ _ _ _ _ (by simpa using h)

theorem genericRowStat_error_shape (sys : Sys) (hm : Bool) (header : List String)
    (tz fmt : String) (r : List String) (e : Err)
    (h : genericRowStat sys hm header tz fmt r = .error e) :
    e = Err.timestampParse (cellD header r "start") := by
  unfold genericRowStat at h
  cases hm with
  | true => exact get_mean_stat_error_shape sys _ _ _ _ _ (by simpa using h)
  | false => exact get_sum_stat_error_shape sys _ _ _ _ _ (by simpa using h)

theorem genericMetaStep_ok (sys : Sys) (hm hs : Bool) (header : List String)
    (ufw : UnitFrom) (s : Stats) (r : List String) (smid : Stats)
    (h : genericMetaStep sys hm hs header ufw s r = .ok smid) :
    ((lookupStats s (cellD header r "statistic_id")).isSome ∧ smid = s) ∨
    (lookupStats s (cellD header r "statistic_id") = none ∧
     ∃ u, add_unit_to_dataframe sys (get_source (cellD header r "statistic_id")) ufw
            (cellD header r "unit") (cellD header r "statistic_id") = .ok u ∧
       smid = statsInsert s (cellD header r "statistic_id")
         ({ has_mean := hm, has_sum := hs,
            source := get_source (cellD header r "statistic_id"),
            statistic_id := cellD header r "statistic_id", name := none,
            unit_of_measurement := u }, [])) := by
  unfold genericMetaStep at h
  by_cases hl : (lookupStats s (cellD header r "statistic_id")).isNone
  · rw [if_pos hl] at h
    cases hu : add_unit_to_dataframe sys (get_source (cellD header r "statistic_id")) ufw
        (cellD header r "unit") (cellD header r "statistic_id") with
    | error e => rw [hu] at h; cases h
    | ok u =>
      rw [hu] at h
      cases h
      exact Or.inr ⟨Option.isNone_iff_eq_none.mp hl, u, rfl, rfl⟩
  · rw [if_neg hl] at h
    cases h
    exact Or.inl ⟨Option.isSome_iff_ne_none.mpr (by simpa using hl), rfl⟩

theorem genericMetaStep_error_shape (sys : Sys) (hm hs : Bool) (header : List String)
    (ufw : UnitFrom) (s : Stats) (r : List String) (e : Err)
    (h : genericMetaStep sys hm hs header ufw s r = .error e) :
    ∃ i, e = Err.unitNotFound i := by
  unfold genericMetaStep at h
  by_cases hl : (lookupStats s (cellD header r "statistic_id")).isNone
  · rw [if_pos hl] at h
    cases hu : add_unit_to_dataframe sys (get_source (cellD header r "statistic_id")) ufw
        (cellD header r "unit") (cellD header r "statistic_id") with
    | error e0 =>
      rw [hu] at h
      cases h
      exact ⟨_, add_unit_error_shape _ _ _ _ _ _ hu⟩
    | ok u => rw [hu] at h; cases h
  · rw [if_neg hl] at h; cases h

theorem genericStep_ok (sys : Sys) (hm hs : Bool) (header : List String)
    (ufw : UnitFrom) (tz fmt : String) (s s1 : Stats) (r : List String)
    (h : genericStep sys hm hs header ufw tz fmt s r = .ok s1) :
    ∃ smid p, genericMetaStep sys hm hs header ufw s r = .ok smid ∧
      genericRowStat sys hm header tz fmt r = .ok p ∧
      s1 = statsAppendPoint smid (cellD header r "statistic_id") p := by
  unfold genericStep at h
  cases hmeta : genericMetaStep sys hm hs header ufw s r with
  | error e => rw [hmeta] at h; cases h
  | ok smid =>
    rw [hmeta] at h
    cases hstat : genericRowStat sys hm header tz fmt r with
    | error e => rw [hstat] at h; cases h
    | ok p =>
      rw [hstat] at h
      cases h
      exact ⟨smid, p, rfl, rfl, rfl⟩

theorem genericStep_error_shape (sys : Sys) (hm hs : Bool) (header : List String)
    (ufw : UnitFrom) (tz fmt : String) (s : Stats) (r : List String) (e : Err)
    (h : genericStep sys hm hs header ufw tz fmt s r = .error e) :
    (∃ t, e = Err.timestampParse t) ∨ (∃ i, e = Err.unitNotFound i) := by
  unfold genericStep at h
  cases hmeta : genericMetaStep sys hm hs header ufw s r with
  | error e0 =>
    rw [hmeta] at h
    cases h
    exact Or.inr (genericMetaStep_error_shape _ _ _ _ _ _ _ _ hmeta)
  | ok smid =>
    rw [hmeta] at h
    cases hstat : genericRowStat sys hm header tz fmt r with
    | error e0 =>
      rw [hstat] at h
      cases h
      exact Or.inl ⟨_, genericRowStat_error_shape _ _ _ _ _ _ _ hstat⟩
    | ok p => rw [hstat] at h; cases h

/-! ### Lemmas about the B/D/F row loop -/

theorem rowResults_nil (f : List String → Except Err StatPoint) :
    rowResults f [] = .ok [] := rfl

theorem rowResults_cons (f : List String → Except Err StatPoint)
    (r : List String) (rs : List (List String)) :
    rowResults f (r :: rs) =
      match f r with
      | .error e => .error e
      | .ok p =>
        match rowResults f rs with
        | .error e => .error e
        | .ok ps => .ok (p :: ps) := rfl

theorem bdfPairResults_nil (fc fs : List String → Except Err StatPoint) :
    bdfPairResults fc fs [] = .ok [] := rfl

theorem bdfPairResults_cons (fc fs : List String → Except Err StatPoint)
    (r : List String) (rs : List (List String)) :
    bdfPairResults fc fs (r :: rs) =
      match fc r with
      | .error e => .error e
      | .ok c =>
        match fs r with
        | .error e => .error e
        | .ok s =>
          match bdfPairResults fc fs rs with
          | .error e => .error e
          | .ok ps => .ok (c :: s :: ps) := rfl

theorem bdfPairResults_length (fc fs : List String → Except Err StatPoint) :
    ∀ (rows : List (List String)) (il : List StatPoint),
      bdfPairResults fc fs rows = .ok il → il.length = 2 * rows.length := by
  intro rows
  induction rows with
  | nil =>
    intro il h
    rw [bdfPairResults_nil] at h
    cases h
    rfl
  | cons r rs ih =>
    intro il h
    rw [bdfPairResults_cons] at h
    cases hc : fc r with
    | error e => rw [hc] at h; cases h
    | ok c =>
      rw [hc] at h
      cases hs : fs r with
      | error e => rw [hs] at h; cases h
      | ok s =>
        rw [hs] at h
        cases hrest : bdfPairResults fc fs rs with
        | error e => rw [hrest] at h; cases h
        | ok ps =>
          rw [hrest] at h
          cases h
          simp [ih ps hrest, Nat.mul_succ, Nat.mul_add]

theorem bdfStep_ok (sys : Sys) (header : List String) (tz fmt : String)
    (cid sid : String) (s s1 : Stats) (r : List String)
    (h : bdfStep sys header tz fmt cid sid s r = .ok s1) :
    ∃ c p, get_sum_stat sys (cellD header r "start") (cellD header r "consumption") tz fmt = .ok c ∧
      get_sum_stat sys (cellD header r "start") (cellD header r "supply") tz fmt = .ok p ∧
      s1 = statsAppendPoint (statsAppendPoint s cid c) sid p := by
  unfold bdfStep at h
  cases hc : get_sum_stat sys (cellD header r "start") (cellD header r "consumption") tz fmt with
  | error e => rw [hc] at h; cases h
  | ok c =>
    rw [hc] at h
    cases hs : get_sum_stat sys (cellD header r "start") (cellD header r "supply") tz fmt with
    | error e => rw [hs] at h; cases h
    | ok p =>
      rw [hs] at h
      cases h
      exact ⟨c, p, rfl, rfl, rfl⟩

theorem processRows_bdf_keys (sys : Sys) (header : List String) (tz fmt : String)
    (cid sid : String) :
    ∀ (rows : List (List String)) (s0 s1 : Stats),
      processRows (bdfStep sys header tz fmt cid sid) s0 rows = .ok s1 →
      statsKeys s1 = statsKeys s0 := by
  intro rows
  induction rows with
  | nil =>
    intro s0 s1 h
    rw [processRows_nil] at h
    cases h
    rfl
  | cons r rs ih =>
    intro s0 s1 h
    cases hstep : bdfStep sys header tz fmt cid sid s0 r with
    | error e => simp [processRows_cons, hstep] at h
    | ok smid =>
      simp only [processRows_cons, hstep] at h
      rcases bdfStep_ok _ _ _ _ _ _ _ _ _ hstep with ⟨c, p, hc, hp, rfl⟩
      rw [ih _ _ h, statsKeys_statsAppendPoint, statsKeys_statsAppendPoint]

theorem processRows_bdf_char_ne (sys : Sys) (header : List String) (tz fmt : String)
    (cid sid : String) (hne : cid ≠ sid) :
    ∀ (rows : List (List String)) (s0 s1 : Stats),
      processRows (bdfStep sys header tz fmt cid sid) s0 rows = .ok s1 →
      ∀ mC pC0 mS pS0, lookupStats s0 cid = some (mC, pC0) →
        lookupStats s0 sid = some (mS, pS0) →
        ∃ newC newS,
          rowResults (fun r => get_sum_stat sys (cellD header r "start")
            (cellD header r "consumption") tz fmt) rows = .ok newC ∧
          rowResults (fun r => get_sum_stat sys (cellD header r "start")
            (cellD header r "supply") tz fmt) rows = .ok newS ∧
          lookupStats s1 cid = some (mC, pC0 ++ newC) ∧
          lookupStats s1 sid = some (mS, pS0 ++ newS) := by
  intro rows
  induction rows with
  | nil =>
    intro s0 s1 h mC pC0 mS pS0 hC hS
    rw [processRows_nil] at h
    cases h
    exact ⟨[], [], rfl, rfl, by simpa using hC, by simpa using hS⟩
  | cons r rs ih =>
    intro s0 s1 h mC pC0 mS pS0 hC hS
    cases hstep : bdfStep sys header tz fmt cid sid s0 r with
    | error e => simp [processRows_cons, hstep] at h
    | ok smid =>
      simp only [processRows_cons, hstep] at h
      rcases bdfStep_ok _ _ _ _ _ _ _ _ _ hstep with ⟨c, p, hc, hp, rfl⟩
      have hC1 : lookupStats (statsAppendPoint (statsAppendPoint s0 cid c) sid p) cid =
          some (mC, pC0 ++ [c]) := by
        rw [lookupStats_statsAppendPoint_ne _ _ _ _ hne,
          lookupStats_statsAppendPoint_self, hC]
        rfl
      have hS1 : lookupStats (statsAppendPoint (statsAppendPoint s0 cid c) sid p) sid =
          some (mS, pS0 ++ [p]) := by
        rw [lookupStats_statsAppendPoint_self,
          lookupStats_statsAppendPoint_ne _ _ _ _ (Ne.symm hne), hS]
        rfl
      rcases ih _ _ h mC (pC0 ++ [c]) mS (pS0 ++ [p]) hC1 hS1 with
        ⟨newC, newS, hrC, hrS, hlC, hlS⟩
      refine ⟨c :: newC, p :: newS, ?_, ?_, ?_, ?_⟩
      · rw [rowResults_cons, hc, hrC]
      · rw [rowResults_cons, hp, hrS]
      · rw [hlC]; simp
      · rw [hlS]; simp

theorem processRows_bdf_char_eq (sys : Sys) (header : List String) (tz fmt : String)
    (sid : String) :
    ∀ (rows : List (List String)) (s0 s1 : Stats),
      processRows (bdfStep sys header tz fmt sid sid) s0 rows = .ok s1 →
      ∀ m pts0, lookupStats s0 sid = some (m, pts0) →
        ∃ il,
          bdfPairResults
            (fun r => get_sum_stat sys (cellD header r "start")
              (cellD header r "consumption") tz fmt)
            (fun r => get_sum_stat sys (cellD header r "start")
              (cellD header r "supply") tz fmt) rows = .ok il ∧
          lookupStats s1 sid = some (m, pts0 ++ il) := by
  intro rows
  induction rows with
  | nil =>
    intro s0 s1 h m pts0 hm
    rw [processRows_nil] at h
    cases h
    exact ⟨[], rfl, by simpa using hm⟩
  | cons r rs ih =>
    intro s0 s1 h m pts0 hm
    cases hstep : bdfStep sys header tz fmt sid sid s0 r with
    | error e => simp [processRows_cons, hstep] at h
    | ok smid =>
      simp only [processRows_cons, hstep] at h
      rcases bdfStep_ok _ _ _ _ _ _ _ _ _ hstep with ⟨c, p, hc, hp, rfl⟩
      have hm1 : lookupStats (statsAppendPoint (statsAppendPoint s0 sid c) sid p) sid =
          some (m, (pts0 ++ [c]) ++ [p]) := by
        rw [lookupStats_statsAppendPoint_self, lookupStats_statsAppendPoint_self, hm]
        rfl
      rcases ih _ _ h m ((pts0 ++ [c]) ++ [p]) hm1 with ⟨il, hres, hl⟩
      refine ⟨c :: p :: il, ?_, ?_⟩
      · rw [bdfPairResults_cons, hc, hp, hres]
      · rw [hl]; simp

/-! ### Characterization of the generic row loop -/

theorem processRows_generic_char (sys : Sys) (hm hs : Bool) (header : List String)
    (ufw : UnitFrom) (tz fmt : String) :
    ∀ (rows : List (List String)) (s0 s1 : Stats),
      processRows (genericStep sys hm hs header ufw tz fmt) s0 rows = .ok s1 →
      ∀ k,
        (∀ m pts0, lookupStats s0 k = some (m, pts0) →
          ∃ new, rowResults (genericRowStat sys hm header tz fmt)
              (rows.filter (fun r => cellD header r "statistic_id" == k)) = .ok new ∧
            lookupStats s1 k = some (m, pts0 ++ new)) ∧
        (lookupStats s0 k = none →
          ∃ new, rowResults (genericRowStat sys hm header tz fmt)
              (rows.filter (fun r => cellD header r "statistic_id" == k)) = .ok new ∧
            ((rows.filter (fun r => cellD header r "statistic_id" == k) = [] ∧
              lookupStats s1 k = none) ∨
             (∃ m, lookupStats s1 k = some (m, new)))) := by
  intro rows
  induction rows with
  | nil =>
    intro s0 s1 h k
    rw [processRows_nil] at h
    cases h
    constructor
    · intro m pts0 hl
      exact ⟨[], rfl, by simpa using hl⟩
    · intro hl
      exact ⟨[], rfl, Or.inl ⟨rfl, hl⟩⟩
  | cons r rs ih =>
    intro s0 s1 h k
    cases hstep : genericStep sys hm hs header ufw tz fmt s0 r with
    | error e => simp [processRows_cons, hstep] at h
    | ok s0' =>
      simp only [processRows_cons, hstep] at h
      rcases genericStep_ok _ _ _ _ _ _ _ _ _ _ hstep with ⟨smid, p, hmeta, hstat, hs0'⟩
      subst hs0'
      by_cases hk : cellD header r "statistic_id" = k
      · subst hk
        have hfil : (r :: rs).filter
            (fun r0 => cellD header r0 "statistic_id" == cellD header r "statistic_id") =
            r :: rs.filter
              (fun r0 => cellD header r0 "statistic_id" == cellD header r "statistic_id") := by
          simp [List.filter_cons]
        rw [hfil]
        constructor
        · intro m pts0 hl
          rcases genericMetaStep_ok _ _ _ _ _ _ _ _ hmeta with
            ⟨hsome, hsmid⟩ | ⟨hnone, u, hu, hsmid⟩
          · have hl' : lookupStats
                (statsAppendPoint smid (cellD header r "statistic_id") p)
                (cellD header r "statistic_id") = some (m, pts0 ++ [p]) := by
              rw [lookupStats_statsAppendPoint_self, hsmid, hl]
              rfl
            rcases (ih _ _ h (cellD header r "statistic_id")).1 m (pts0 ++ [p]) hl' with
              ⟨new, hres, hfin⟩
            refine ⟨p :: new, ?_, ?_⟩
            · rw [rowResults_cons, hstat, hres]
            · rw [hfin]; simp
          · rw [hl] at hnone; cases hnone
        · intro hl
          rcases genericMetaStep_ok _ _ _ _ _ _ _ _ hmeta with
            ⟨hsome, hsmid⟩ | ⟨hnone, u, hu, hsmid⟩
          · rw [hl] at hsome; cases hsome
          · have hl' : lookupStats
                (statsAppendPoint smid (cellD header r "statistic_id") p)
                (cellD header r "statistic_id") =
                some ({ has_mean := hm, has_sum := hs,
                        source := get_source (cellD header r "statistic_id"),
                        statistic_id := cellD header r "statistic_id", name := none,
                        unit_of_measurement := u }, [p]) := by
              rw [lookupStats_statsAppendPoint_self, hsmid, lookupStats_statsInsert_self]
              rfl
            rcases (ih _ _ h (cellD header r "statistic_id")).1 _ [p] hl' with
              ⟨new, hres, hfin⟩
            refine ⟨p :: new, ?_,
              Or.inr ⟨{ has_mean := hm, has_sum := hs,
                        source := get_source (cellD header r "statistic_id"),
                        statistic_id := cellD header r "statistic_id", name := none,
                        unit_of_measurement := u }, ?_⟩⟩
            · rw [rowResults_cons, hstat, hres]
            · rw [hfin]; rfl
      · have hfil : (r :: rs).filter (fun r0 => cellD header r0 "statistic_id" == k) =
            rs.filter (fun r0 => cellD header r0 "statistic_id" == k) := by
          simp [List.filter_cons, hk]
        rw [hfil]
        have hpres : lookupStats
            (statsAppendPoint smid (cellD header r "statistic_id") p) k =
            lookupStats s0 k := by
          rw [lookupStats_statsAppendPoint_ne _ _ _ _ (Ne.symm hk)]
          rcases genericMetaStep_ok _ _ _ _ _ _ _ _ hmeta with
            ⟨hsome, hsmid⟩ | ⟨hnone, u, hu, hsmid⟩
          · rw [hsmid]
          · rw [hsmid]
            exact lookupStats_statsInsert_ne _ _ _ _ (Ne.symm hk)
        constructor
        · intro m pts0 hl
          exact (ih _ _ h k).1 m pts0 (hpres.trans hl)
        · intro hl
          exact (ih _ _ h k).2 (hpres.trans hl)

/-! ### Decomposition of the two dataframe handlers -/

theorem handle_dataframe_ok (sys : Sys) (df : Frame) (tzid fmt : String)
    (ufw : UnitFrom) (out : Stats)
    (h : handle_dataframe sys df tzid fmt ufw = .ok out) :
    df.header.contains "statistic_id" = true ∧
    df.header.contains "start" = true ∧
    sys.validTz tzid = true ∧
    (df.header.contains "mean" && df.header.contains "sum") = false ∧
    (df.header.contains "mean" || df.header.contains "sum") = true ∧
    processRows (genericStep sys (df.header.contains "mean") (df.header.contains "sum")
      df.header ufw tzid fmt) [] df.rows = .ok out := by
  unfold handle_dataframe are_columns_valid at h
  by_cases h1 : "statistic_id" ∈ df.header
  · by_cases h2 : "start" ∈ df.header
    · by_cases h3 : "mean" ∈ df.header
      · by_cases h4 : "sum" ∈ df.header
        · simp [h1, h2, h3, h4] at h
        · by_cases h5 : sys.validTz tzid = true
          · simp [h1, h2, h3, h4, h5] at h
            refine ⟨by simp [h1], by simp [h2], h5, by simp [h3, h4],
              by simp [h3, h4], ?_⟩
            simpa [h3, h4] using h
          · simp [h1, h2, h3, h4, h5] at h
      · by_cases h4 : "sum" ∈ df.header
        · by_cases h5 : sys.validTz tzid = true
          · simp [h1, h2, h3, h4, h5] at h
            refine ⟨by simp [h1], by simp [h2], h5, by simp [h3, h4],
              by simp [h3, h4], ?_⟩
            simpa [h3, h4] using h
          · simp [h1, h2, h3, h4, h5] at h
        · simp [h1, h2, h3, h4] at h
    · simp [h1, h2] at h
  · simp [h1] at h

theorem handle_dataframe_bdf_ok (sys : Sys) (df : Frame) (tzid fmt : String)
    (ufw : UnitFrom) (cid sid uc us : String) (out : Stats)
    (h : handle_dataframe_bdf sys df tzid fmt ufw cid sid uc us = .ok out) :
    (["start", "consumption", "supply"].all (fun c => df.header.contains c)) = true ∧
    sys.validTz tzid = true ∧
    ∃ mC mS,
      bdfMetaFor sys ufw cid uc = .ok mC ∧
      bdfMetaFor sys ufw sid us = .ok mS ∧
      processRows (bdfStep sys df.header tzid fmt cid sid)
        (statsInsert (statsInsert [] cid (mC, [])) sid (mS, [])) df.rows = .ok out := by
  unfold handle_dataframe_bdf at h
  by_cases hs1 : "start" ∈ df.header
  · by_cases hs2 : "consumption" ∈ df.header
    · by_cases hs3 : "supply" ∈ df.header
      · by_cases h2 : sys.validTz tzid = true
        · simp [hs1, hs2, hs3, h2] at h
          cases hmC : bdfMetaFor sys ufw cid uc with
          | error e => simp [hmC] at h
          | ok mC =>
            simp only [hmC] at h
            cases hmS : bdfMetaFor sys ufw sid us with
            | error e => simp [hmS] at h
            | ok mS =>
              simp only [hmS] at h
              exact ⟨by simp [hs1, hs2, hs3], h2, mC, mS, rfl, rfl, h⟩
        · simp [hs1, hs2, hs3, h2] at h
      · simp [hs1, hs2, hs3] at h
    · simp [hs1, hs2] at h
  · simp [hs1] at h

theorem bdfMetaFor_ok (sys : Sys) (ufw : UnitFrom) (stat_id unit_hint : String)
    (m : Metadata) (h : bdfMetaFor sys ufw stat_id unit_hint = .ok m) :
    ∃ u, add_unit_to_dataframe sys (get_source stat_id) ufw unit_hint stat_id = .ok u ∧
      m = { has_mean := false, has_sum := true, source := get_source stat_id,
            statistic_id := stat_id, name := none, unit_of_measurement := u } := by
  unfold bdfMetaFor at h
  cases hu : add_unit_to_dataframe sys (get_source stat_id) ufw unit_hint stat_id with
  | error e => rw [hu] at h; cases h
  | ok u =>
    rw [hu] at h
    cases h
    exact ⟨u, rfl, rfl⟩

/-! ### Dispatch of prepare_data_to_import -/

theorem prepare_dispatch (env : Env) (p : String) (call : CallData)
    (d tzid : String) (delim : Option String) (fmt : String) (ufe : UnitFrom) (f : Frame)
    (hargs : handle_arguments env p call = .ok (d, tzid, delim, fmt, ufe))
    (hf : env.files p = some f) :
    prepare_data_to_import env p call =
      match bdfAttempt env.sys f tzid fmt ufe call with
      | .ok stats => .ok (stats, ufe)
      | .error _ => genericPath env.sys f tzid fmt ufe := by
  unfold prepare_data_to_import
  rw [hargs]
  simp only [hf]

/-! ### Claim theorems -/

/-- C2: for every invocation that passes argument resolution, the
specialized-layout (B/D/F) parse is attempted first; exactly when that
attempt fails, the failure is recovered internally (no error surfaced) and
the generic-layout parse of the file runs instead; when the attempt
succeeds, its result is returned and the generic parse never runs. -/
theorem C2_specialized_first_fallback (env : Env) (p : String) (call : CallData)
    (d tzid : String) (delim : Option String) (fmt : String) (ufe : UnitFrom) (f : Frame)
    (hargs : handle_arguments env p call = .ok (d, tzid, delim, fmt, ufe))
    (hf : env.files p = some f) :
    (∀ out, bdfAttempt env.sys f tzid fmt ufe call = .ok out →
      prepare_data_to_import env p call = .ok (out, ufe)) ∧
    (∀ e, bdfAttempt env.sys f tzid fmt ufe call = .error e →
      prepare_data_to_import env p call = genericPath env.sys f tzid fmt ufe) := by
  constructor
  · intro out hb
    rw [prepare_dispatch env p call d tzid delim fmt ufe f hargs hf, hb]
  · intro e hb
    rw [prepare_dispatch env p call d tzid delim fmt ufe f hargs hf, hb]

/-- Witness for C2 at a concrete input: a generic-layout file makes the
specialized attempt fail (its columns are absent), and the invocation equals
the generic fallback path. -/
theorem C2_witness :
    handle_arguments (envOf fileGen) "data.csv" callW =
      .ok (",", "Europe/Bratislava", none, DATETIME_DEFAULT_FORMAT, UnitFrom.TABLE) ∧
    (envOf fileGen).files "data.csv" = some fileGen ∧
    bdfAttempt (envOf fileGen).sys fileGen "Europe/Bratislava" DATETIME_DEFAULT_FORMAT
      UnitFrom.TABLE callW = .error Err.usecolsMissing ∧
    prepare_data_to_import (envOf fileGen) "data.csv" callW =
      genericPath (envOf fileGen).sys fileGen "Europe/Bratislava" DATETIME_DEFAULT_FORMAT
        UnitFrom.TABLE :=
  ⟨by decide, by decide, by decide,
    (C2_specialized_first_fallback (envOf fileGen) "data.csv" callW ","
      "Europe/Bratislava" none DATETIME_DEFAULT_FORMAT UnitFrom.TABLE fileGen
      (by decide) (by decide)).2 Err.usecolsMissing (by decide)⟩

/-- C7: argument resolution validates in a fixed order before any file
parsing: when the input path does not exist the invocation fails with a
message including the path, whatever the timezone option holds; when the
path exists but the timezone identifier does not resolve, it fails with a
message including the identifier.  In both cases the result is the argument
error itself, so no file content is parsed. -/
theorem C7_argument_validation (env : Env) (p : String) (call : CallData) :
    (env.files p = none →
      prepare_data_to_import env p call =
        .error (Err.fileNotFound ("path " ++ p ++ " does not exist.")) ∧
      containsSub ("path " ++ p ++ " does not exist.") p) ∧
    (∀ tzid, (env.files p).isSome → call.timezone_identifier = some tzid →
      env.sys.validTz tzid = false →
      prepare_data_to_import env p call =
        .error (Err.invalidTimezone ("Invalid timezone_identifier: " ++ tzid)) ∧
      containsSub ("Invalid timezone_identifier: " ++ tzid) tzid) := by
  constructor
  · intro hf
    have hargs : handle_arguments env p call =
        .error (Err.fileNotFound ("path " ++ p ++ " does not exist.")) := by
      simp [handle_arguments, hf]
    constructor
    · unfold prepare_data_to_import
      rw [hargs]
    · exact ⟨"path ", " does not exist.", rfl⟩
  · intro tzid hf htz hv
    rcases Option.isSome_iff_exists.mp hf with ⟨f, hsome⟩
    have hargs : handle_arguments env p call =
        .error (Err.invalidTimezone ("Invalid timezone_identifier: " ++ tzid)) := by
      simp [handle_arguments, hsome, htz, hv]
    constructor
    · unfold prepare_data_to_import
      rw [hargs]
    · exact ⟨"Invalid timezone_identifier: ", "", by simp⟩

/-- Witness for C7 at concrete inputs: a missing path fails with the
path-bearing message, and an existing path with a bad timezone fails with
the identifier-bearing message. -/
theorem C7_witness :
    (envEmpty.files "nope.csv" = none ∧
      prepare_data_to_import envEmpty "nope.csv" callW =
        .error (Err.fileNotFound ("path " ++ "nope.csv" ++ " does not exist.")) ∧
      containsSub ("path " ++ "nope.csv" ++ " does not exist.") "nope.csv") ∧
    (((envOf fileGen).files "data.csv").isSome ∧
      prepare_data_to_import (envOf fileGen) "data.csv" callBadTz =
        .error (Err.invalidTimezone ("Invalid timezone_identifier: " ++ "Not/AZone")) ∧
      containsSub ("Invalid timezone_identifier: " ++ "Not/AZone") "Not/AZone") :=
  ⟨⟨rfl, (C7_argument_validation envEmpty "nope.csv" callW).1 rfl⟩,
   ⟨by decide,
    (C7_argument_validation (envOf fileGen) "data.csv" callBadTz).2 "Not/AZone"
      (by decide) (by decide) (by decide)⟩⟩

/-- C8: the resolved options take the documented defaults: the decimal
separator is "," when the decimal flag is absent or true and "." when it is
false; the field delimiter resolves to ";" when absent; the datetime format
defaults to the literal default pattern; and the unit source is
FROM_SOURCE_SYSTEM (ENTITY) exactly when the unit-from-entity flag is true,
else FROM_TABLE. -/
theorem C8_defaults (env : Env) (p : String) (call : CallData)
    (d tzid : String) (delim : Option String) (fmt : String) (ufe : UnitFrom)
    (h : handle_arguments env p call = .ok (d, tzid, delim, fmt, ufe)) :
    ((call.decimal = none ∨ call.decimal = some true) → d = ",") ∧
    (call.decimal = some false → d = ".") ∧
    (call.delimiter = none → resolveDelimiter delim = ";") ∧
    (call.datetime_format = none → fmt = "%d.%m.%Y %H:%M") ∧
    (call.unit_from_entity = some true → ufe = UnitFrom.ENTITY) ∧
    (call.unit_from_entity ≠ some true → ufe = UnitFrom.TABLE) := by
  simp only [handle_arguments] at h
  split at h
  · cases h
  · split at h
    · cases h
    · split at h
      · cases h
        refine ⟨?_, ?_, ?_, ?_, ?_, ?_⟩
        · rintro (hc | hc) <;> simp [hc]
        · intro hc; simp [hc]
        · intro hc; simp [hc, resolveDelimiter]
        · intro hc; simp [hc, DATETIME_DEFAULT_FORMAT]
        · intro hc; simp [hc]
        · intro hc; simp [hc]
      · cases h

/-- Witness for C8 at a concrete input: the all-defaults call resolves to
comma decimal, ";" delimiter, the default datetime format and FROM_TABLE. -/
theorem C8_witness :
    handle_arguments (envOf fileGen) "data.csv" callW =
      .ok (",", "Europe/Bratislava", none, DATETIME_DEFAULT_FORMAT, UnitFrom.TABLE) ∧
    (("," : String) = "," ∧ resolveDelimiter none = ";" ∧
      DATETIME_DEFAULT_FORMAT = "%d.%m.%Y %H:%M" ∧ UnitFrom.TABLE = UnitFrom.TABLE) := by
  have h := C8_defaults (envOf fileGen) "data.csv" callW ","
    "Europe/Bratislava" none DATETIME_DEFAULT_FORMAT UnitFrom.TABLE (by decide)
  exact ⟨by decide, h.1 (Or.inl rfl), h.2.2.1 rfl, h.2.2.2.1 rfl,
    h.2.2.2.2.2 (by decide)⟩

/-! ### Further shared decomposition lemmas -/

theorem bdfAttempt_ok (sys : Sys) (f : Frame) (tzid fmt : String) (ufe : UnitFrom)
    (call : CallData) (out : Stats)
    (h : bdfAttempt sys f tzid fmt ufe call = .ok out) :
    ∃ sel, read_csv_usecols f [CSV_COL_DATETIME, CSV_COL_CONSUMPTION, CSV_COL_SUPPLY] =
        .ok sel ∧
      handle_dataframe_bdf sys (renameCols sel bdfRename) tzid fmt ufe
        (call.statistic_id_consumption.getD "sensor.energy_consumption")
        (call.statistic_id_supply.getD "sensor.energy_supply")
        (call.unit_consumption.getD "") (call.unit_supply.getD "") = .ok out := by
  unfold bdfAttempt at h
  cases hr : read_csv_usecols f [CSV_COL_DATETIME, CSV_COL_CONSUMPTION, CSV_COL_SUPPLY] with
  | error e => rw [hr] at h; cases h
  | ok sel =>
    rw [hr] at h
    exact ⟨sel, rfl, h⟩

theorem genericPath_ok (sys : Sys) (f : Frame) (tzid fmt : String) (ufe : UnitFrom)
    (out : Stats) (u : UnitFrom)
    (h : genericPath sys f tzid fmt ufe = .ok (out, u)) :
    u = ufe ∧ handle_dataframe sys f tzid fmt ufe = .ok out := by
  unfold genericPath at h
  cases hd : handle_dataframe sys f tzid fmt ufe with
  | error e => rw [hd] at h; cases h
  | ok stats =>
    rw [hd] at h
    cases h
    exact ⟨rfl, rfl⟩

theorem prepare_ok_cases (env : Env) (p : String) (call : CallData)
    (out : Stats) (u : UnitFrom)
    (h : prepare_data_to_import env p call = .ok (out, u)) :
    ∃ d tzid delim fmt f,
      handle_arguments env p call = .ok (d, tzid, delim, fmt, u) ∧
      env.files p = some f ∧
      (bdfAttempt env.sys f tzid fmt u call = .ok out ∨
       ((∃ e, bdfAttempt env.sys f tzid fmt u call = .error e) ∧
        handle_dataframe env.sys f tzid fmt u = .ok out)) := by
  unfold prepare_data_to_import at h
  cases hargs : handle_arguments env p call with
  | error e => rw [hargs] at h; cases h
  | ok args =>
    obtain ⟨d, tzid, delim, fmt, ufe⟩ := args
    rw [hargs] at h
    cases hf : env.files p with
    | none => simp only [hf] at h; cases h
    | some f =>
      simp only [hf] at h
      cases hb : bdfAttempt env.sys f tzid fmt ufe call with
      | ok stats =>
        simp only [hb] at h
        cases h
        exact ⟨d, tzid, delim, fmt, f, rfl, rfl, Or.inl hb⟩
      | error e =>
        simp only [hb] at h
        rcases genericPath_ok _ _ _ _ _ _ _ h with ⟨rfl, hd⟩
        exact ⟨d, tzid, delim, fmt, f, rfl, rfl, Or.inr ⟨⟨e, hb⟩, hd⟩⟩

theorem handle_dataframe_meta (sys : Sys) (df : Frame) (tzid fmt : String)
    (ufw : UnitFrom) (out : Stats)
    (h : handle_dataframe sys df tzid fmt ufw = .ok out) :
    ∀ e ∈ out, e.2.1.has_mean = df.header.contains "mean" ∧
      e.2.1.has_sum = df.header.contains "sum" := by
  rcases handle_dataframe_ok _ _ _ _ _ _ h with ⟨_, _, _, _, _, hrun⟩
  refine processRows_meta_invariant _
    (fun m => m.has_mean = df.header.contains "mean" ∧
      m.has_sum = df.header.contains "sum") ?_ df.rows [] out ?_ hrun
  · intro s r s' hall hstep
    rcases genericStep_ok _ _ _ _ _ _ _ _ _ _ hstep with ⟨smid, pp, hmeta, hstat, hs'⟩
    subst hs'
    intro e he
    rcases mem_statsAppendPoint _ _ _ _ he with ⟨e0, he0, _, hmeq⟩
    rw [hmeq]
    rcases genericMetaStep_ok _ _ _ _ _ _ _ _ hmeta with ⟨_, hsmid⟩ | ⟨_, u, hu, hsmid⟩
    · rw [hsmid] at he0
      exact hall e0 he0
    · rw [hsmid] at he0
      rcases mem_statsInsert _ _ _ _ he0 with hin | heq0
      · exact hall e0 hin
      · rw [heq0]
        exact ⟨rfl, rfl⟩
  · intro e he
    simp at he

theorem handle_dataframe_bdf_meta (sys : Sys) (df : Frame) (tzid fmt : String)
    (ufw : UnitFrom) (cid sid uc us : String) (out : Stats)
    (h : handle_dataframe_bdf sys df tzid fmt ufw cid sid uc us = .ok out) :
    ∀ e ∈ out, e.2.1.has_mean = false ∧ e.2.1.has_sum = true := by
  rcases handle_dataframe_bdf_ok _ _ _ _ _ _ _ _ _ _ h with
    ⟨_, _, mC, mS, hmC, hmS, hrun⟩
  rcases bdfMetaFor_ok _ _ _ _ _ hmC with ⟨uC, _, hmCval⟩
  rcases bdfMetaFor_ok _ _ _ _ _ hmS with ⟨uS, _, hmSval⟩
  refine processRows_meta_invariant _
    (fun m => m.has_mean = false ∧ m.has_sum = true) ?_ df.rows _ out ?_ hrun
  · intro s r s' hall hstep
    rcases bdfStep_ok _ _ _ _ _ _ _ _ _ hstep with ⟨c, pp, hc, hp, hs'⟩
    subst hs'
    intro e he
    rcases mem_statsAppendPoint _ _ _ _ he with ⟨e1, he1, _, hmeq1⟩
    rcases mem_statsAppendPoint _ _ _ _ he1 with ⟨e0, he0, _, hmeq0⟩
    rw [hmeq1, hmeq0]
    exact hall e0 he0
  · intro e he
    rcases mem_statsInsert _ _ _ _ he with hin | heq
    · rcases mem_statsInsert _ _ _ _ hin with hnil | heq0
      · simp at hnil
      · rw [heq0, hmCval]
        exact ⟨rfl, rfl⟩
    · rw [heq, hmSval]
      exact ⟨rfl, rfl⟩

/-- C9: determinism — the transformation is a pure function of the file
content and the caller options: two invocations whose environments agree on
the runtime capabilities and map their paths to the same file content
produce identical results (same keys, same metadata, same ordered points,
or the same failure). -/
theorem C9_deterministic (env1 env2 : Env) (p1 p2 : String) (call : CallData)
    (f : Frame) (h1 : env1.files p1 = some f) (h2 : env2.files p2 = some f)
    (hsys : env1.sys = env2.sys) :
    prepare_data_to_import env1 p1 call = prepare_data_to_import env2 p2 call := by
  simp [prepare_data_to_import, handle_arguments, h1, h2, hsys]

/-- Witness for C9 at a concrete input: two different filesystems carrying
the same generic file at different paths give identical results. -/
theorem C9_witness :
    (envOf fileGen).files "data.csv" = some fileGen ∧
    envAll.files "other.csv" = some fileGen ∧
    (envOf fileGen).sys = envAll.sys ∧
    prepare_data_to_import (envOf fileGen) "data.csv" callW =
      prepare_data_to_import envAll "other.csv" callW :=
  ⟨rfl, rfl, rfl,
    C9_deterministic (envOf fileGen) envAll "data.csv" "other.csv" callW fileGen
      rfl rfl rfl⟩

/-- C4: for a generic-layout table (one carrying the required statistic_id
and start columns), processing fails with the AmbiguousAggregation error if
and only if the column set carries both of mean/sum or neither of them;
otherwise processing proceeds and any produced series metadata takes its
aggregation kind from the single present column. -/
theorem C4_ambiguous_iff (sys : Sys) (df : Frame) (tzid fmt : String) (ufw : UnitFrom)
    (hsid : df.header.contains "statistic_id" = true)
    (hstart : df.header.contains "start" = true) :
    ((df.header.contains "mean" = df.header.contains "sum") ↔
      (handle_dataframe sys df tzid fmt ufw = .error Err.ambiguousBoth ∨
       handle_dataframe sys df tzid fmt ufw = .error Err.ambiguousNeither)) ∧
    (df.header.contains "mean" ≠ df.header.contains "sum" →
      ∀ out, handle_dataframe sys df tzid fmt ufw = .ok out →
        ∀ e ∈ out, e.2.1.has_mean = df.header.contains "mean" ∧
          e.2.1.has_sum = df.header.contains "sum") := by
  have hsid' : "statistic_id" ∈ df.header := by simpa using hsid
  have hstart' : "start" ∈ df.header := by simpa using hstart
  constructor
  · constructor
    · intro heq
      cases hcm : df.header.contains "mean" with
      | true =>
        have hcs : df.header.contains "sum" = true := by rw [← heq, hcm]
        have hm' : "mean" ∈ df.header := by simpa using hcm
        have hs' : "sum" ∈ df.header := by simpa using hcs
        left
        unfold handle_dataframe are_columns_valid
        simp [hsid', hstart', hm', hs']
      | false =>
        have hcs : df.header.contains "sum" = false := by rw [← heq, hcm]
        have hm' : ¬ "mean" ∈ df.header := by simpa using hcm
        have hs' : ¬ "sum" ∈ df.header := by simpa using hcs
        right
        unfold handle_dataframe are_columns_valid
        simp [hsid', hstart', hm', hs']
    · intro hres
      by_contra hne
      have hboth : df.header.contains "mean" = !(df.header.contains "sum") := by
        cases hcm : df.header.contains "mean" <;>
          cases hcs : df.header.contains "sum" <;> simp_all
      cases hcm : df.header.contains "mean" with
      | true =>
        have hcs : df.header.contains "sum" = false := by
          rw [hcm] at hboth; simpa using hboth.symm
        have hm' : "mean" ∈ df.header := by simpa using hcm
        have hs' : ¬ "sum" ∈ df.header := by simpa using hcs
        rcases hres with hres | hres <;>
        · unfold handle_dataframe are_columns_valid at hres
          simp [hsid', hstart', hm', hs'] at hres
          by_cases hv : sys.validTz tzid = true
          · simp [hv] at hres
            rcases processRows_error_shape _
              (fun e => (∃ t, e = Err.timestampParse t) ∨
                (∃ i, e = Err.unitNotFound i))
              (fun s r e he => genericStep_error_shape _ _ _ _ _ _ _ _ _ _ he)
              _ _ _ hres with ⟨t, ht⟩ | ⟨i, hi⟩
            · cases ht
            · cases hi
          · simp [hv] at hres
      | false =>
        have hcs : df.header.contains "sum" = true := by
          rw [hcm] at hboth; simpa using hboth.symm
        have hm' : ¬ "mean" ∈ df.header := by simpa using hcm
        have hs' : "sum" ∈ df.header := by simpa using hcs
        rcases hres with hres | hres <;>
        · unfold handle_dataframe are_columns_valid at hres
          simp [hsid', hstart', hm', hs'] at hres
          by_cases hv : sys.validTz tzid = true
          · simp [hv] at hres
            rcases processRows_error_shape _
              (fun e => (∃ t, e = Err.timestampParse t) ∨
                (∃ i, e = Err.unitNotFound i))
              (fun s r e he => genericStep_error_shape _ _ _ _ _ _ _ _ _ _ he)
              _ _ _ hres with ⟨t, ht⟩ | ⟨i, hi⟩
            · cases ht
            · cases hi
          · simp [hv] at hres
  · intro hne out hok
    exact handle_dataframe_meta _ _ _ _ _ _ hok

/-- Witness for C4 at a concrete input: a table with both mean and sum
columns fails with the AmbiguousAggregation (both-present) error. -/
theorem C4_witness :
    fileBothMeanSum.header.contains "statistic_id" = true ∧
    fileBothMeanSum.header.contains "start" = true ∧
    fileBothMeanSum.header.contains "mean" = fileBothMeanSum.header.contains "sum" ∧
    (handle_dataframe toySys fileBothMeanSum "Europe/Bratislava"
        DATETIME_DEFAULT_FORMAT UnitFrom.TABLE = .error Err.ambiguousBoth ∨
     handle_dataframe toySys fileBothMeanSum "Europe/Bratislava"
        DATETIME_DEFAULT_FORMAT UnitFrom.TABLE = .error Err.ambiguousNeither) :=
  ⟨by decide, by decide, by decide,
    ((C4_ambiguous_iff toySys fileBothMeanSum "Europe/Bratislava"
      DATETIME_DEFAULT_FORMAT UnitFrom.TABLE (by decide) (by decide)).1).mp (by decide)⟩

/-- C5: in every successfully produced Output each series metadata has
exactly one of has_mean/has_sum set; in generic-layout mode every series
takes the one aggregation kind read off the column header, in B/D/F mode
every series has has_sum and not has_mean; and at the prepare level all
series of one Output share the same kind. -/
theorem C5_aggregation_kind :
    (∀ (sys : Sys) (df : Frame) (tzid fmt : String) (ufw : UnitFrom) (out : Stats),
      handle_dataframe sys df tzid fmt ufw = .ok out →
      (df.header.contains "mean" ≠ df.header.contains "sum") ∧
      ∀ e ∈ out, e.2.1.has_mean = df.header.contains "mean" ∧
        e.2.1.has_sum = df.header.contains "sum") ∧
    (∀ (sys : Sys) (df : Frame) (tzid fmt : String) (ufw : UnitFrom)
        (cid sid uc us : String) (out : Stats),
      handle_dataframe_bdf sys df tzid fmt ufw cid sid uc us = .ok out →
      ∀ e ∈ out, e.2.1.has_mean = false ∧ e.2.1.has_sum = true) ∧
    (∀ (env : Env) (p : String) (call : CallData) (out : Stats) (u : UnitFrom),
      prepare_data_to_import env p call = .ok (out, u) →
      ∀ e ∈ out, (e.2.1.has_mean = !e.2.1.has_sum) ∧
        ∀ e2 ∈ out, e2.2.1.has_sum = e.2.1.has_sum) := by
  refine ⟨?_, ?_, ?_⟩
  · intro sys df tzid fmt ufw out h
    rcases handle_dataframe_ok _ _ _ _ _ _ h with ⟨_, _, _, hb, ho, _⟩
    refine ⟨?_, handle_dataframe_meta _ _ _ _ _ _ h⟩
    cases hcm : df.header.contains "mean" <;>
      cases hcs : df.header.contains "sum" <;> simp_all
  · intro sys df tzid fmt ufw cid sid uc us out h
    exact handle_dataframe_bdf_meta _ _ _ _ _ _ _ _ _ _ h
  · intro env p call out u h
    rcases prepare_ok_cases _ _ _ _ _ h with ⟨d, tzid, delim, fmt, f, _, _, hcase⟩
    rcases hcase with hbdf | ⟨_, hgen⟩
    · rcases bdfAttempt_ok _ _ _ _ _ _ _ hbdf with ⟨sel, _, hb⟩
      have hmeta := handle_dataframe_bdf_meta _ _ _ _ _ _ _ _ _ _ hb
      intro e he
      rcases hmeta e he with ⟨hm0, hs0⟩
      refine ⟨by rw [hm0, hs0]; rfl, ?_⟩
      intro e2 he2
      rcases hmeta e2 he2 with ⟨hm2, hs2⟩
      rw [hs2, hs0]
    · have hmeta := handle_dataframe_meta _ _ _ _ _ _ hgen
      have hne : f.header.contains "mean" ≠ f.header.contains "sum" := by
        rcases handle_dataframe_ok _ _ _ _ _ _ hgen with ⟨_, _, _, hb, ho, _⟩
        cases hcm : f.header.contains "mean" <;>
          cases hcs : f.header.contains "sum" <;> simp_all
      intro e he
      rcases hmeta e he with ⟨hm0, hs0⟩
      constructor
      · rw [hm0, hs0]
        cases hcm : f.header.contains "mean" <;>
          cases hcs : f.header.contains "sum" <;> simp_all
      · intro e2 he2
        rcases hmeta e2 he2 with ⟨hm2, hs2⟩
        rw [hs2, hs0]

/-- Witness for C5 at a concrete input: the generic file yields one series
whose metadata has has_sum and not has_mean. -/
theorem C5_witness :
    handle_dataframe toySys fileGen "Europe/Bratislava" DATETIME_DEFAULT_FORMAT
      UnitFrom.TABLE =
      .ok [("sensor.a",
        { has_mean := false, has_sum := true, source := "sensor",
          statistic_id := "sensor.a", name := none, unit_of_measurement := "" },
        [{ start := 0, tz := "Europe/Bratislava", value := StatValue.sum "5" },
         { start := 60, tz := "Europe/Bratislava", value := StatValue.sum "3" }])] ∧
    (fileGen.header.contains "mean" ≠ fileGen.header.contains "sum" ∧
      ∀ e ∈ ([("sensor.a",
        { has_mean := false, has_sum := true, source := "sensor",
          statistic_id := "sensor.a", name := none, unit_of_measurement := "" },
        [{ start := 0, tz := "Europe/Bratislava", value := StatValue.sum "5" },
         { start := 60, tz := "Europe/Bratislava", value := StatValue.sum "3" }])] : Stats),
        e.2.1.has_mean = fileGen.header.contains "mean" ∧
        e.2.1.has_sum = fileGen.header.contains "sum") :=
  ⟨by decide,
    C5_aggregation_kind.1 toySys fileGen "Europe/Bratislava" DATETIME_DEFAULT_FORMAT
      UnitFrom.TABLE _ (by decide)⟩

theorem rowResults_length (f : List String → Except Err StatPoint) :
    ∀ (rows : List (List String)) (ps : List StatPoint),
      rowResults f rows = .ok ps → ps.length = rows.length := by
  intro rows
  induction rows with
  | nil =>
    intro ps h
    rw [rowResults_nil] at h
    cases h
    rfl
  | cons r rs ih =>
    intro ps h
    rw [rowResults_cons] at h
    cases hf : f r with
    | error e => rw [hf] at h; cases h
    | ok p =>
      rw [hf] at h
      cases hrest : rowResults f rs with
      | error e => rw [hrest] at h; cases h
      | ok ps0 =>
        rw [hrest] at h
        cases h
        simp [ih ps0 hrest]

/-- C6: point order follows file row order.  In the generic layout the point
list of every series in the Output is exactly the row-order list of the
statistics computed from the rows bearing that series id; in the B/D/F
layout (with distinct configured ids) each of the two series receives
exactly one point per row, in row order. -/
theorem C6_point_order :
    (∀ (sys : Sys) (df : Frame) (tzid fmt : String) (ufw : UnitFrom) (out : Stats),
      handle_dataframe sys df tzid fmt ufw = .ok out →
      ∀ k m pts, lookupStats out k = some (m, pts) →
        rowResults (genericRowStat sys (df.header.contains "mean") df.header tzid fmt)
          (df.rows.filter (fun r => cellD df.header r "statistic_id" == k)) = .ok pts) ∧
    (∀ (sys : Sys) (df : Frame) (tzid fmt : String) (ufw : UnitFrom)
        (cid sid uc us : String) (out : Stats),
      handle_dataframe_bdf sys df tzid fmt ufw cid sid uc us = .ok out →
      cid ≠ sid →
      (∃ m pts, lookupStats out cid = some (m, pts) ∧
        rowResults (fun r => get_sum_stat sys (cellD df.header r "start")
          (cellD df.header r "consumption") tzid fmt) df.rows = .ok pts ∧
        pts.length = df.rows.length) ∧
      (∃ m pts, lookupStats out sid = some (m, pts) ∧
        rowResults (fun r => get_sum_stat sys (cellD df.header r "start")
          (cellD df.header r "supply") tzid fmt) df.rows = .ok pts ∧
        pts.length = df.rows.length)) := by
  constructor
  · intro sys df tzid fmt ufw out h k m pts hlk
    rcases handle_dataframe_ok _ _ _ _ _ _ h with ⟨_, _, _, _, _, hrun⟩
    rcases (processRows_generic_char _ _ _ _ _ _ _ df.rows [] out hrun k).2 rfl with
      ⟨new, hres, hdisj⟩
    rcases hdisj with ⟨_, hnone⟩ | ⟨m2, hsome⟩
    · rw [hlk] at hnone; cases hnone
    · rw [hlk] at hsome
      cases hsome
      exact hres
  · intro sys df tzid fmt ufw cid sid uc us out h hne
    rcases handle_dataframe_bdf_ok _ _ _ _ _ _ _ _ _ _ h with
      ⟨_, _, mC, mS, hmC, hmS, hrun⟩
    have hC0 : lookupStats (statsInsert (statsInsert [] cid (mC, [])) sid (mS, [])) cid =
        some (mC, []) := by
      rw [lookupStats_statsInsert_ne _ _ _ _ hne, lookupStats_statsInsert_self]
    have hS0 : lookupStats (statsInsert (statsInsert [] cid (mC, [])) sid (mS, [])) sid =
        some (mS, []) := by
      rw [lookupStats_statsInsert_self]
    rcases processRows_bdf_char_ne _ _ _ _ _ _ hne df.rows _ out hrun mC [] mS [] hC0 hS0
      with ⟨newC, newS, hrC, hrS, hlC, hlS⟩
    exact ⟨⟨mC, newC, by simpa using hlC, hrC, rowResults_length _ _ _ hrC⟩,
      ⟨mS, newS, by simpa using hlS, hrS, rowResults_length _ _ _ hrS⟩⟩

/-- Witness for C6 at a concrete input: the generic file yields the series
"sensor.a" whose point list is the row-order list of its two row
statistics. -/
theorem C6_witness :
    handle_dataframe toySys fileGen "Europe/Bratislava" DATETIME_DEFAULT_FORMAT
      UnitFrom.TABLE =
      .ok [("sensor.a",
        { has_mean := false, has_sum := true, source := "sensor",
          statistic_id := "sensor.a", name := none, unit_of_measurement := "" },
        [{ start := 0, tz := "Europe/Bratislava", value := StatValue.sum "5" },
         { start := 60, tz := "Europe/Bratislava", value := StatValue.sum "3" }])] ∧
    rowResults (genericRowStat toySys (fileGen.header.contains "mean") fileGen.header
        "Europe/Bratislava" DATETIME_DEFAULT_FORMAT)
      (fileGen.rows.filter (fun r => cellD fileGen.header r "statistic_id" == "sensor.a")) =
      .ok [{ start := 0, tz := "Europe/Bratislava", value := StatValue.sum "5" },
           { start := 60, tz := "Europe/Bratislava", value := StatValue.sum "3" }] :=
  ⟨by decide,
    C6_point_order.1 toySys fileGen "Europe/Bratislava" DATETIME_DEFAULT_FORMAT
      UnitFrom.TABLE
      [("sensor.a",
        { has_mean := false, has_sum := true, source := "sensor",
          statistic_id := "sensor.a", name := none, unit_of_measurement := "" },
        [{ start := 0, tz := "Europe/Bratislava", value := StatValue.sum "5" },
         { start := 60, tz := "Europe/Bratislava", value := StatValue.sum "3" }])]
      (by decide) "sensor.a"
      { has_mean := false, has_sum := true, source := "sensor",
        statistic_id := "sensor.a", name := none, unit_of_measurement := "" }
      [{ start := 0, tz := "Europe/Bratislava", value := StatValue.sum "5" },
       { start := 60, tz := "Europe/Bratislava", value := StatValue.sum "3" }]
      (by decide)⟩

/-- Counterexample for C1: in the specialized layout a malformed timestamp
does not abort the transformation — the failure is caught by the try/except
of prepare_data_to_import and the generic fallback runs; here the fallback
even succeeds, producing an Output although the supplier datetime column of
the file does not parse. -/
theorem C1_counterexample :
    bdfAttempt (envOf fileMix).sys fileMix "Europe/Bratislava" DATETIME_DEFAULT_FORMAT
      UnitFrom.TABLE callW = .error (Err.timestampParse "bad-ts") ∧
    prepare_data_to_import (envOf fileMix) "data.csv" callW =
      .ok ([("sensor.a",
        { has_mean := false, has_sum := true, source := "sensor",
          statistic_id := "sensor.a", name := none, unit_of_measurement := "" },
        [{ start := 0, tz := "Europe/Bratislava", value := StatValue.sum "5" }])],
        UnitFrom.TABLE) :=
  ⟨by decide, by decide⟩

/-- C1 (amended): in the generic layout a row timestamp that does not parse
against the resolved format aborts the transformation — no Output and no
partial result is produced; in the specialized layout any failure of the
B/D/F attempt (a malformed timestamp included) is recovered by falling back
to the generic parse of the file. -/
theorem C1_generic_timestamp_aborts :
    (∀ (sys : Sys) (df : Frame) (tzid fmt : String) (ufw : UnitFrom),
      (∃ r ∈ df.rows, sys.strptime fmt (cellD df.header r "start") = none) →
      ∀ out, handle_dataframe sys df tzid fmt ufw ≠ .ok out) ∧
    (∀ (env : Env) (p : String) (call : CallData) (d tzid : String)
        (delim : Option String) (fmt : String) (ufe : UnitFrom) (f : Frame) (e : Err),
      handle_arguments env p call = .ok (d, tzid, delim, fmt, ufe) →
      env.files p = some f →
      bdfAttempt env.sys f tzid fmt ufe call = .error e →
      prepare_data_to_import env p call = genericPath env.sys f tzid fmt ufe) := by
  constructor
  · rintro sys df tzid fmt ufw ⟨r, hr, hbad⟩ out hok
    rcases handle_dataframe_ok _ _ _ _ _ _ hok with ⟨_, _, _, _, _, hrun⟩
    rcases processRows_ok_step _ df.rows [] out hrun r hr with ⟨a, b, hstep⟩
    rcases genericStep_ok _ _ _ _ _ _ _ _ _ _ hstep with ⟨smid, p, _, hstat, _⟩
    have := genericRowStat_ok_strptime _ _ _ _ _ _ _ hstat
    rw [hbad] at this
    cases this
  · intro env p call d tzid delim fmt ufe f e hargs hf hb
    rw [prepare_dispatch env p call d tzid delim fmt ufe f hargs hf, hb]

/-- Witness for C1 at concrete inputs: a generic file with an unparsable
start cell admits no successful handle_dataframe result, and the mixed file
whose specialized attempt fails falls back to the generic path. -/
theorem C1_witness :
    ((∃ r ∈ fileGenBad.rows,
        toySys.strptime DATETIME_DEFAULT_FORMAT (cellD fileGenBad.header r "start") = none) ∧
      ∀ out, handle_dataframe toySys fileGenBad "Europe/Bratislava"
        DATETIME_DEFAULT_FORMAT UnitFrom.TABLE ≠ .ok out) ∧
    (handle_arguments (envOf fileMix) "data.csv" callW =
        .ok (",", "Europe/Bratislava", none, DATETIME_DEFAULT_FORMAT, UnitFrom.TABLE) ∧
      prepare_data_to_import (envOf fileMix) "data.csv" callW =
        genericPath (envOf fileMix).sys fileMix "Europe/Bratislava"
          DATETIME_DEFAULT_FORMAT UnitFrom.TABLE) :=
  ⟨⟨by decide,
    C1_generic_timestamp_aborts.1 toySys fileGenBad "Europe/Bratislava"
      DATETIME_DEFAULT_FORMAT UnitFrom.TABLE (by decide)⟩,
   ⟨by decide,
    C1_generic_timestamp_aborts.2 (envOf fileMix) "data.csv" callW ","
      "Europe/Bratislava" none DATETIME_DEFAULT_FORMAT UnitFrom.TABLE fileMix
      (Err.timestampParse "bad-ts") (by decide) (by decide) (by decide)⟩⟩

/-- Counterexample for C3: a file whose header carries all three specialized
column headers, processed with the consumption and supply identifiers
configured to one and the same string, produces an Output with exactly one
key, not two. -/
theorem C3_counterexample :
    fileBdfPlain.header.contains CSV_COL_DATETIME = true ∧
    fileBdfPlain.header.contains CSV_COL_CONSUMPTION = true ∧
    fileBdfPlain.header.contains CSV_COL_SUPPLY = true ∧
    prepare_data_to_import (envOf fileBdfPlain) "data.csv" callEq =
      .ok ([("sensor.x",
        { has_mean := false, has_sum := true, source := "sensor",
          statistic_id := "sensor.x", name := none, unit_of_measurement := "kW" },
        [{ start := 0, tz := "Europe/Bratislava", value := StatValue.sum "1" },
         { start := 0, tz := "Europe/Bratislava", value := StatValue.sum "2" }])],
        UnitFrom.TABLE) ∧
    statsKeys [("sensor.x",
        ({ has_mean := false, has_sum := true, source := "sensor",
           statistic_id := "sensor.x", name := none,
           unit_of_measurement := "kW" } : Metadata),
        [{ start := 0, tz := "Europe/Bratislava", value := StatValue.sum "1" },
         { start := 0, tz := "Europe/Bratislava", value := StatValue.sum "2" }])] =
      ["sensor.x"] :=
  ⟨by decide, by decide, by decide, by decide, by decide⟩

/-- C3 (amended): whenever the specialized (B/D/F) attempt succeeds — which
presupposes the header carries the three specialized column headers — and
the two configured identifiers are distinct, the invocation returns that
attempt's Output and its key list is exactly the configured consumption
identifier followed by the configured supply identifier, regardless of any
other columns present. -/
theorem C3_two_series (env : Env) (p : String) (call : CallData)
    (d tzid : String) (delim : Option String) (fmt : String) (ufe : UnitFrom)
    (f : Frame) (out : Stats)
    (hargs : handle_arguments env p call = .ok (d, tzid, delim, fmt, ufe))
    (hf : env.files p = some f)
    (hne : call.statistic_id_consumption.getD "sensor.energy_consumption" ≠
           call.statistic_id_supply.getD "sensor.energy_supply")
    (hb : bdfAttempt env.sys f tzid fmt ufe call = .ok out) :
    prepare_data_to_import env p call = .ok (out, ufe) ∧
    statsKeys out = [call.statistic_id_consumption.getD "sensor.energy_consumption",
                     call.statistic_id_supply.getD "sensor.energy_supply"] := by
  constructor
  · rw [prepare_dispatch env p call d tzid delim fmt ufe f hargs hf, hb]
  · rcases bdfAttempt_ok _ _ _ _ _ _ _ hb with ⟨sel, _, hbdf⟩
    rcases handle_dataframe_bdf_ok _ _ _ _ _ _ _ _ _ _ hbdf with
      ⟨_, _, mC, mS, hmC, hmS, hrun⟩
    rw [processRows_bdf_keys _ _ _ _ _ _ _ _ _ hrun]
    simp [statsInsert, statsKeys, hne]

/-- Witness for C3 at a concrete input: the supplier file with the default
(distinct) identifiers yields exactly the two configured keys. -/
theorem C3_witness :
    handle_arguments (envOf fileBdf) "data.csv" callW =
      .ok (",", "Europe/Bratislava", none, DATETIME_DEFAULT_FORMAT, UnitFrom.TABLE) ∧
    (prepare_data_to_import (envOf fileBdf) "data.csv" callW =
      .ok ([("sensor.energy_consumption",
        { has_mean := false, has_sum := true, source := "sensor",
          statistic_id := "sensor.energy_consumption", name := none,
          unit_of_measurement := "" },
        [{ start := 0, tz := "Europe/Bratislava", value := StatValue.sum "1" },
         { start := 60, tz := "Europe/Bratislava", value := StatValue.sum "3" }]),
        ("sensor.energy_supply",
        { has_mean := false, has_sum := true, source := "sensor",
          statistic_id := "sensor.energy_supply", name := none,
          unit_of_measurement := "" },
        [{ start := 0, tz := "Europe/Bratislava", value := StatValue.sum "2" },
         { start := 60, tz := "Europe/Bratislava", value := StatValue.sum "4" }])],
        UnitFrom.TABLE) ∧
      statsKeys [("sensor.energy_consumption",
        ({ has_mean := false, has_sum := true, source := "sensor",
           statistic_id := "sensor.energy_consumption", name := none,
           unit_of_measurement := "" } : Metadata),
        [{ start := 0, tz := "Europe/Bratislava", value := StatValue.sum "1" },
         { start := 60, tz := "Europe/Bratislava", value := StatValue.sum "3" }]),
        ("sensor.energy_supply",
        { has_mean := false, has_sum := true, source := "sensor",
          statistic_id := "sensor.energy_supply", name := none,
          unit_of_measurement := "" },
        [{ start := 0, tz := "Europe/Bratislava", value := StatValue.sum "2" },
         { start := 60, tz := "Europe/Bratislava", value := StatValue.sum "4" }])] =
        ["sensor.energy_consumption", "sensor.energy_supply"]) :=
  ⟨by decide,
    C3_two_series (envOf fileBdf) "data.csv" callW ","
      "Europe/Bratislava" none DATETIME_DEFAULT_FORMAT UnitFrom.TABLE fileBdf
      [("sensor.energy_consumption",
        { has_mean := false, has_sum := true, source := "sensor",
          statistic_id := "sensor.energy_consumption", name := none,
          unit_of_measurement := "" },
        [{ start := 0, tz := "Europe/Bratislava", value := StatValue.sum "1" },
         { start := 60, tz := "Europe/Bratislava", value := StatValue.sum "3" }]),
        ("sensor.energy_supply",
        { has_mean := false, has_sum := true, source := "sensor",
          statistic_id := "sensor.energy_supply", name := none,
          unit_of_measurement := "" },
        [{ start := 0, tz := "Europe/Bratislava", value := StatValue.sum "2" },
         { start := 60, tz := "Europe/Bratislava", value := StatValue.sum "4" }])]
      (by decide) (by decide) (by decide) (by decide)⟩

/-- C10: in the specialized layout with both series identifiers configured
to one string, the Output has exactly one key; the supply-side metadata
construction overwrote the consumption one, so the surviving metadata uses
the supply unit hint; and the single point list interleaves consumption and
supply points, two per input row, in row order. -/
theorem C10_equal_ids (sys : Sys) (df : Frame) (tzid fmt : String) (ufw : UnitFrom)
    (sid uc us : String) (out : Stats)
    (h : handle_dataframe_bdf sys df tzid fmt ufw sid sid uc us = .ok out) :
    statsKeys out = [sid] ∧
    ∃ u pts,
      add_unit_to_dataframe sys (get_source sid) ufw us sid = .ok u ∧
      lookupStats out sid = some
        ({ has_mean := false, has_sum := true, source := get_source sid,
           statistic_id := sid, name := none, unit_of_measurement := u }, pts) ∧
      bdfPairResults
        (fun r => get_sum_stat sys (cellD df.header r "start")
          (cellD df.header r "consumption") tzid fmt)
        (fun r => get_sum_stat sys (cellD df.header r "start")
          (cellD df.header r "supply") tzid fmt) df.rows = .ok pts ∧
      pts.length = 2 * df.rows.length := by
  rcases handle_dataframe_bdf_ok _ _ _ _ _ _ _ _ _ _ h with
    ⟨_, _, mC, mS, hmC, hmS, hrun⟩
  have hs0 : statsInsert (statsInsert [] sid (mC, [])) sid (mS, []) =
      [(sid, (mS, []))] := by
    simp [statsInsert]
  constructor
  · rw [processRows_bdf_keys _ _ _ _ _ _ _ _ _ hrun, hs0]
    rfl
  · rcases bdfMetaFor_ok _ _ _ _ _ hmS with ⟨u, hu, hmSval⟩
    have hl0 : lookupStats (statsInsert (statsInsert [] sid (mC, [])) sid (mS, [])) sid =
        some (mS, []) := by
      rw [hs0]
      simp [lookupStats]
    rcases processRows_bdf_char_eq _ _ _ _ _ df.rows _ out hrun mS [] hl0 with
      ⟨il, hres, hl⟩
    refine ⟨u, il, hu, ?_, hres, bdfPairResults_length _ _ _ _ hres⟩
    rw [← hmSval]
    simpa using hl

/-- Witness for C10 at a concrete input: equal identifiers on a one-row
supplier table give one key carrying the supply unit hint and two
interleaved points. -/
theorem C10_witness :
    handle_dataframe_bdf toySys
      { header := ["start", "consumption", "supply"],
        rows := [["01.01.2023 00:00", "1", "2"]] }
      "Europe/Bratislava" DATETIME_DEFAULT_FORMAT UnitFrom.TABLE
      "sensor.x" "sensor.x" "kWh" "kW" =
      .ok [("sensor.x",
        { has_mean := false, has_sum := true, source := "sensor",
          statistic_id := "sensor.x", name := none, unit_of_measurement := "kW" },
        [{ start := 0, tz := "Europe/Bratislava", value := StatValue.sum "1" },
         { start := 0, tz := "Europe/Bratislava", value := StatValue.sum "2" }])] ∧
    (statsKeys [("sensor.x",
        ({ has_mean := false, has_sum := true, source := "sensor",
           statistic_id := "sensor.x", name := none,
           unit_of_measurement := "kW" } : Metadata),
        [{ start := 0, tz := "Europe/Bratislava", value := StatValue.sum "1" },
         { start := 0, tz := "Europe/Bratislava", value := StatValue.sum "2" }])] =
      ["sensor.x"] ∧
    ∃ u pts,
      add_unit_to_dataframe toySys (get_source "sensor.x") UnitFrom.TABLE "kW"
        "sensor.x" = .ok u ∧
      lookupStats [("sensor.x",
        ({ has_mean := false, has_sum := true, source := "sensor",
           statistic_id := "sensor.x", name := none,
           unit_of_measurement := "kW" } : Metadata),
        [{ start := 0, tz := "Europe/Bratislava", value := StatValue.sum "1" },
         { start := 0, tz := "Europe/Bratislava", value := StatValue.sum "2" }])]
        "sensor.x" = some
        ({ has_mean := false, has_sum := true, source := get_source "sensor.x",
           statistic_id := "sensor.x", name := none, unit_of_measurement := u }, pts) ∧
      bdfPairResults
        (fun r => get_sum_stat toySys
          (cellD ["start", "consumption", "supply"] r "start")
          (cellD ["start", "consumption", "supply"] r "consumption")
          "Europe/Bratislava" DATETIME_DEFAULT_FORMAT)
        (fun r => get_sum_stat toySys
          (cellD ["start", "consumption", "supply"] r "start")
          (cellD ["start", "consumption", "supply"] r "supply")
          "Europe/Bratislava" DATETIME_DEFAULT_FORMAT)
        [["01.01.2023 00:00", "1", "2"]] = .ok pts ∧
      pts.length = 2 * [["01.01.2023 00:00", "1", "2"]].length) :=
  ⟨by decide,
    C10_equal_ids toySys
      { header := ["start", "consumption", "supply"],
        rows := [["01.01.2023 00:00", "1", "2"]] }
      "Europe/Bratislava" DATETIME_DEFAULT_FORMAT UnitFrom.TABLE
      "sensor.x" "kWh" "kW"
      [("sensor.x",
        { has_mean := false, has_sum := true, source := "sensor",
          statistic_id := "sensor.x", name := none, unit_of_measurement := "kW" },
        [{ start := 0, tz := "Europe/Bratislava", value := StatValue.sum "1" },
         { start := 0, tz := "Europe/Bratislava", value := StatValue.sum "2" }])]
      (by decide)⟩

end ImportStatistics
